import Mathlib

/-
Verification of the MapReader tile-addressing and sheet-download pipeline.

The development shallowly embeds the Python sources:
  src/mapreader/download/downloader_utils.py
  src/mapreader/download/sheet_downloader.py

Python floats are modelled as exact real numbers; Python `int()` applied to a
float is truncation toward zero (`pyTrunc`).  Python exceptions are modelled
by an explicit error type `Err`; a function that can raise returns
`Except Err _`.  The module `data_structures.py` (Coordinate, GridIndex,
GridBoundingBox) is not part of the provided sources, so `GridBoundingBox`
construction is modelled from the specification (section 3 of spec.md).
-/

open Real

/-- Err models the Python exception classes raised by the embedded code.
The specification taxonomy (spec.md section 7) maps onto these as follows:
`InvalidArgument` covers `assertionError`/`valueError`/`notImplementedError`
raised while validating arguments, `PreconditionError` is the `valueError`
carrying the "Please first run get_grid_bb" message, `NotFound` is the
`valueError` raised when no catalog entry matches. -/
inductive Err where
  | assertionError (msg : String)
  | valueError (msg : String)
  | notImplementedError (msg : String)
  | attributeError (msg : String)
  | syntaxError (msg : String)
  deriving DecidableEq, Repr

/-- Python `int(x)` on a float: truncation toward zero. -/
noncomputable def pyTrunc (x : ℝ) : ℤ :=
  if 0 ≤ x then ⌊x⌋ else ⌈x⌉

/-- math.radians. -/
noncomputable def pyRadians (d : ℝ) : ℝ := d * π / 180

/-- math.degrees. -/
noncomputable def pyDegrees (r : ℝ) : ℝ := r * 180 / π

/-- Coordinate from data_structures.py: a (lat, lon) pair. -/
structure Coordinate where
  lat : ℝ
  lon : ℝ

/-- GridIndex from data_structures.py: a slippy-map tile address. -/
structure GridIndex where
  x : ℤ
  y : ℤ
  z : ℤ
  deriving DecidableEq

/-- The AssertionError raised by `assert z >= 0, "Zoom level must be positive"`;
this is the failure the specification taxonomy calls `InvalidArgument` for a
negative zoom. -/
def invalidZoom : Err := Err.assertionError ("Zoom level must be positive")

/-- downloader_utils._get_index_from_coordinate.  `n = 2**z`;
`x = int((lon + 180) / 360 * n)`;
`y = int((1 - asinh(tan(radians(lat))) / pi) / 2 * n)`. -/
noncomputable def _get_index_from_coordinate (lon lat : ℝ) (z : ℤ) :
    Except Err (ℤ × ℤ) :=
  if 0 ≤ z then
    let n : ℝ := 2 ^ z.toNat
    let x := pyTrunc ((lon + 180) / 360 * n)
    let lat_rad := pyRadians lat
    let y := pyTrunc ((1 - Real.arsinh (Real.tan lat_rad) / π) / 2 * n)
    Except.ok (x, y)
  else
    Except.error invalidZoom

/-- downloader_utils._get_coordinate_from_index.  `n = 2**z`;
`lon = (x / n) * 360 - 180`; `lat = degrees(atan(sinh(pi * (1 - 2 * y / n))))`. -/
noncomputable def _get_coordinate_from_index (x y z : ℤ) :
    Except Err (ℝ × ℝ) :=
  if 0 ≤ z then
    let n : ℝ := 2 ^ z.toNat
    let lon := ((x : ℝ) / n) * 360 - 180
    let lat_rad := Real.arctan (Real.sinh (π * (1 - 2 * (y : ℝ) / n)))
    let lat := pyDegrees lat_rad
    Except.ok (lon, lat)
  else
    Except.error invalidZoom

/-- downloader_utils.get_index_from_coordinate. -/
noncomputable def get_index_from_coordinate (c : Coordinate) (zoom : ℤ) :
    Except Err GridIndex := do
  let xy ← _get_index_from_coordinate c.lon c.lat zoom
  return { x := xy.1, y := xy.2, z := zoom }

/-- downloader_utils.get_coordinate_from_index; returns the upper-left corner
of the addressed tile. -/
noncomputable def get_coordinate_from_index (gi : GridIndex) :
    Except Err Coordinate := do
  let ll ← _get_coordinate_from_index gi.x gi.y gi.z
  return { lat := ll.2, lon := ll.1 }

/-- Modelled from the spec: `GridBoundingBox` lives in data_structures.py,
which is not among the provided sources.  Spec.md section 3 states that both
corners share `z`, that `lower_corner.x ≤ upper_corner.x` and that the
y-ordering follows the tile convention, so the constructor normalises the two
given cells componentwise by min/max and requires equal zooms. -/
structure GridBoundingBox where
  lower_corner : GridIndex
  upper_corner : GridIndex
  deriving DecidableEq

/-- Modelled from the spec: the `GridBoundingBox(cell1, cell2)` constructor. -/
def mkGridBoundingBox (a b : GridIndex) : Except Err GridBoundingBox :=
  if a.z = b.z then
    Except.ok
      { lower_corner := { x := min a.x b.x, y := min a.y b.y, z := a.z }
        upper_corner := { x := max a.x b.x, y := max a.y b.y, z := a.z } }
  else
    Except.error (Err.assertionError ("Grid bounding boxes must have the same zoom level"))

/-- A shapely axis-aligned rectangle, the image of `shapely.geometry.box`:
the two defining corners are stored as given (box does not normalise). -/
structure Rect (α : Type) where
  x1 : α
  y1 : α
  x2 : α
  y2 : α
  deriving DecidableEq

/-- shapely `polygon.bounds` for a rectangle: `(min_x, min_y, max_x, max_y)`,
computed from the stored corners. -/
def Rect.bounds {α : Type} [LinearOrder α] (r : Rect α) : α × α × α × α :=
  (min r.x1 r.x2, min r.y1 r.y2, max r.x1 r.x2, max r.y1 r.y2)

/-- downloader_utils.create_polygon_from_latlons:
`box(min_lon, min_lat, max_lon, max_lat)` with arguments stored as given. -/
def create_polygon_from_latlons {α : Type} (min_lat min_lon max_lat max_lon : α) :
    Rect α :=
  { x1 := min_lon, y1 := min_lat, x2 := max_lon, y2 := max_lat }

/-- downloader_utils.get_grid_bb_from_polygon. -/
noncomputable def get_grid_bb_from_polygon (polygon : Rect ℝ) (zoom_level : ℤ) :
    Except Err GridBoundingBox := do
  let (min_x, min_y, max_x, max_y) := polygon.bounds
  let start : Coordinate := { lat := min_y, lon := max_x }
  let stop : Coordinate := { lat := max_y, lon := min_x }
  let start_idx ← get_index_from_coordinate start zoom_level
  let end_idx ← get_index_from_coordinate stop zoom_level
  mkGridBoundingBox start_idx end_idx

/-- downloader_utils.get_polygon_from_grid_bb. -/
noncomputable def get_polygon_from_grid_bb (grid_bb : GridBoundingBox) :
    Except Err (Rect ℝ) := do
  let lower ← get_coordinate_from_index grid_bb.lower_corner
  let upper ← get_coordinate_from_index grid_bb.upper_corner
  return create_polygon_from_latlons lower.lat lower.lon upper.lat upper.lon

/-- The pre-truncation x value inside _get_index_from_coordinate, as a
function of the longitude and of `n = 2**zoom`. -/
noncomputable def tileXVal (lon n : ℝ) : ℝ := (lon + 180) / 360 * n

/-- The pre-truncation y value inside _get_index_from_coordinate. -/
noncomputable def tileYVal (lat n : ℝ) : ℝ :=
  (1 - Real.arsinh (Real.tan (pyRadians lat)) / π) / 2 * n

/-- The longitude computed by _get_coordinate_from_index as a function of the
(real-valued) tile column. -/
noncomputable def tileLon (x n : ℝ) : ℝ := (x / n) * 360 - 180

/-- The latitude computed by _get_coordinate_from_index as a function of the
(real-valued) tile row. -/
noncomputable def tileLat (y n : ℝ) : ℝ :=
  pyDegrees (Real.arctan (Real.sinh (π * (1 - 2 * y / n))))

/-
The sheet_downloader.py catalog model.  Query/download operations run over
JSON-derived feature records; geometry attached to features is exact
rational, so every predicate below is executable.
-/

/-- Minimum x of the stored corners of a rectangle. -/
def Rect.minx {α : Type} [LinearOrder α] (r : Rect α) : α := min r.x1 r.x2

/-- Maximum x of the stored corners of a rectangle. -/
def Rect.maxx {α : Type} [LinearOrder α] (r : Rect α) : α := max r.x1 r.x2

/-- Minimum y of the stored corners of a rectangle. -/
def Rect.miny {α : Type} [LinearOrder α] (r : Rect α) : α := min r.y1 r.y2

/-- Maximum y of the stored corners of a rectangle. -/
def Rect.maxy {α : Type} [LinearOrder α] (r : Rect α) : α := max r.y1 r.y2

/-- shapely `a.within(b)` for rectangles: the closed point set of `a` is
contained in that of `b`. -/
def rectWithin (a b : Rect ℚ) : Bool :=
  decide (b.minx ≤ a.minx ∧ a.maxx ≤ b.maxx ∧ b.miny ≤ a.miny ∧ a.maxy ≤ b.maxy)

/-- shapely `a.intersects(b)` for rectangles: the closed point sets meet. -/
def rectIntersects (a b : Rect ℚ) : Bool :=
  decide (a.minx ≤ b.maxx ∧ b.minx ≤ a.maxx ∧ a.miny ≤ b.maxy ∧ b.miny ≤ a.maxy)

/-- shapely `r.contains(point)`: the point lies in the interior of `r`. -/
def rectContainsPoint (r : Rect ℚ) (p : ℚ × ℚ) : Bool :=
  decide (r.minx < p.1 ∧ p.1 < r.maxx ∧ r.miny < p.2 ∧ p.2 < r.maxy)

/-- shapely `r.disjoint(point)`: the point lies outside the closed set `r`. -/
def rectDisjointPoint (r : Rect ℚ) (p : ℚ × ℚ) : Bool :=
  !(decide (r.minx ≤ p.1 ∧ p.1 ≤ r.maxx ∧ r.miny ≤ p.2 ∧ p.2 ≤ r.maxy))

/-- shapely `a.disjoint(b)` for rectangles. -/
def rectDisjoint (a b : Rect ℚ) : Bool :=
  !(rectIntersects a b)

/-- A two-point line segment, the image of `shapely.geometry.LineString`
restricted to the two-point lines this code base builds. -/
structure Seg where
  x1 : ℚ
  y1 : ℚ
  x2 : ℚ
  y2 : ℚ
  deriving DecidableEq

/-- downloader_utils.create_line_from_latlons: the points arrive as
`(lat, lon)` tuples and are stored in `(lon, lat)` order. -/
def create_line_from_latlons (lat1_lon1 lat2_lon2 : ℚ × ℚ) : Seg :=
  { x1 := lat1_lon1.2, y1 := lat1_lon1.1, x2 := lat2_lon2.2, y2 := lat2_lon2.1 }

/-- shapely `r.intersects(line)` for a rectangle and a segment, by the
separating-axis criterion (exact for closed convex sets): the two sets meet
iff their projections overlap on the two box axes, the segment direction and
its normal. -/
def rectIntersectsLine (r : Rect ℚ) (l : Seg) : Bool :=
  let dx := l.x2 - l.x1
  let dy := l.y2 - l.y1
  let axes : List (ℚ × ℚ) := [(1, 0), (0, 1), (dx, dy), (-dy, dx)]
  axes.all (fun a =>
    let pr := fun (px py : ℚ) => a.1 * px + a.2 * py
    let c1 := pr r.x1 r.y1
    let c2 := pr r.x1 r.y2
    let c3 := pr r.x2 r.y1
    let c4 := pr r.x2 r.y2
    let rlo := min (min c1 c2) (min c3 c4)
    let rhi := max (max c1 c2) (max c3 c4)
    let s1 := pr l.x1 l.y1
    let s2 := pr l.x2 l.y2
    decide (rlo ≤ max s1 s2 ∧ min s1 s2 ≤ rhi))

/-- shapely `r.disjoint(line)`. -/
def rectDisjointLine (r : Rect ℚ) (l : Seg) : Bool :=
  !(rectIntersectsLine r l)

/-- PyV models the Python values stored in the catalog: JSON scalars, dicts
and lists, plus the shapely and grid objects with which the code augments
feature records in place.  `geoms` stands for a parsed catalog geometry
(`shape(feature["geometry"])`), a sequence of sub-geometries. -/
inductive PyV where
  | str (s : String)
  | int (n : ℤ)
  | none
  | dict (kvs : List (String × PyV))
  | list (xs : List PyV)
  | rect (r : Rect ℚ)
  | geoms (rs : List (Rect ℚ))
  | gridBB (bb : GridBoundingBox)

mutual
/-- Python `==` on the modelled values.  Dicts are compared as ordered
association lists; the catalog never reorders keys, so this coincides with
Python's order-insensitive dict equality on the states the theorems use. -/
def pyEq : PyV → PyV → Bool
  | .str a, .str b => a == b
  | .int a, .int b => a == b
  | .none, .none => true
  | .dict a, .dict b => pyEqKVs a b
  | .list a, .list b => pyEqElems a b
  | .rect a, .rect b => a == b
  | .geoms a, .geoms b => a == b
  | .gridBB a, .gridBB b => a == b
  | _, _ => false

/-- Python `==` on dict entry lists. -/
def pyEqKVs : List (String × PyV) → List (String × PyV) → Bool
  | [], [] => true
  | (k1, v1) :: r1, (k2, v2) :: r2 => k1 == k2 && pyEq v1 v2 && pyEqKVs r1 r2
  | _, _ => false

/-- Python `==` on list elements. -/
def pyEqElems : List PyV → List PyV → Bool
  | [], [] => true
  | a :: ar, b :: br => pyEq a b && pyEqElems ar br
  | _, _ => false
end

/-- Python `x in xs` for a list, which tests membership with `==`. -/
def pyMem (x : PyV) (xs : List PyV) : Bool :=
  xs.any (fun y => pyEq x y)

/-- Python `d[k]` for the dict values this code subscripts.  The embedded
theorems only subscript keys that are present (Python raises KeyError
otherwise), so missing keys map to a junk `none` that no theorem relies on. -/
def pySubscript (d : PyV) (k : String) : PyV :=
  match d with
  | .dict kvs => (List.lookup k kvs).getD PyV.none
  | _ => PyV.none

/-- Python `d[k] = v` on a dict (in-place update, position preserved). -/
def pySetKV : List (String × PyV) → String → PyV → List (String × PyV)
  | [], k, v => [(k, v)]
  | (k1, v1) :: r, k, v =>
      if k1 = k then (k, v) :: r else (k1, v1) :: pySetKV r k v

/-- Python `d[k] = v` lifted to PyV (identity on non-dicts). -/
def pySet (d : PyV) (k : String) (v : PyV) : PyV :=
  match d with
  | .dict kvs => .dict (pySetKV kvs k v)
  | x => x

/-- Python `d.get(k)`: `None` for a missing key on a dict, AttributeError on
any non-dict receiver (including `None`). -/
def pyDictGet (d : PyV) (k : String) : Except Err PyV :=
  match d with
  | .dict kvs => Except.ok ((List.lookup k kvs).getD PyV.none)
  | _ => Except.error (Err.attributeError ("object has no attribute get"))

/-- Python `str()` of a modelled value.  Only the scalar cases are exercised
by the verified claims; compound reprs are coarse stand-ins. -/
def pyStr : PyV → String
  | .str s => s
  | .int n => toString n
  | .none => "None"
  | .dict _ => "\x7b...\x7d"
  | .list _ => "[...]"
  | .rect _ => "POLYGON (...)"
  | .geoms _ => "MULTIPOLYGON (...)"
  | .gridBB _ => "GridBoundingBox(...)"

/-- Containment of one character sequence inside another. -/
def containsSeq (pat : List Char) : List Char → Bool
  | [] => pat.isEmpty
  | c :: t => pat.isPrefixOf (c :: t) || containsSeq pat t

/-- re.search(string, field, re.IGNORECASE) coerced to bool, modelled for the
literal (metacharacter-free) patterns the verified claims exercise:
case-insensitive substring containment. -/
def reSearch (pat s : String) : Bool :=
  containsSeq (pat.toList.map Char.toLower) (s.toList.map Char.toLower)

/-- The integer denoted by a run of decimal digits. -/
def digitsToInt (ds : List Char) : ℤ :=
  ds.foldl (fun a c => 10 * a + ((c.toNat : ℤ) - ('0'.toNat : ℤ))) 0

/-- Python `eval` applied to a string of decimal digits, as done by
`eval(wfs_id_no)` and `eval(published_date[0])`: the integer value, except
that an integer literal with a leading zero (other than "0" itself) is a
SyntaxError in Python 3, and a non-digit string is not an integer literal at
all (modelled as the same failure). -/
def pyEvalDigits (s : String) : Except Err ℤ :=
  if s.toList ≠ [] ∧ s.toList.all Char.isDigit then
    if s.toList.head? = some '0' ∧ s.length > 1 then
      Except.error (Err.syntaxError ("leading zeros in decimal integer literals are not permitted"))
    else
      Except.ok (digitsToInt s.toList)
  else
    Except.error (Err.syntaxError ("invalid literal"))

/-- The literal of the regex `Published.*[\D]([\d]+)`, lowered for the
IGNORECASE comparison. -/
def pubLit : List Char := String.toList ("published")

/-- Case-insensitive literal prefix test (the pattern side is lowercase). -/
def ciStartsWith : List Char → List Char → Bool
  | [], _ => true
  | _ :: _, [] => false
  | p :: ps, c :: cs => (p == c.toLower) && ciStartsWith ps cs

/-- Backtracking position of `[\D]` in `Published.*[\D]([\d]+)` once the
literal has matched and `t` is the remaining input: `.*` (which cannot cross
a newline) is greedy, so the regex engine places `[\D]` at the largest `j`
such that no newline occurs before position `j`, `t[j]` is a non-digit and
`t[j+1]` is a digit. -/
def bestSplitPos (t : List Char) : Option ℕ :=
  let k := (t.takeWhile (fun c => c != '\n')).length
  (List.range (k + 1)).foldl
    (fun acc j =>
      match t.drop j with
      | c :: d :: _ => if (!c.isDigit) && d.isDigit then some j else acc
      | _ => acc)
    Option.none

/-- One greedy match of `.*[\D]([\d]+)` against `t`: the captured digit run
and the number of characters of `t` the match consumes. -/
def pubMatchTail (t : List Char) : Option (List Char × ℕ) :=
  match bestSplitPos t with
  | some j =>
      let run := (t.drop (j + 1)).takeWhile Char.isDigit
      some (run, j + 1 + run.length)
  | Option.none => Option.none

/-- Scanning loop of re.findall for `Published.*[\D]([\d]+)` with IGNORECASE:
leftmost matches, scanning resumes after each match, each match contributing
its captured group.  The fuel argument only forces structural recursion;
every step consumes at least one character, so `fuel = length` never runs
out. -/
def findallPubAux : ℕ → List Char → List (List Char)
  | 0, _ => []
  | _ + 1, [] => []
  | fuel + 1, c :: rest =>
      if ciStartsWith pubLit (c :: rest) then
        match pubMatchTail ((c :: rest).drop 9) with
        | some (run, used) => run :: findallPubAux fuel (((c :: rest).drop 9).drop used)
        | Option.none => findallPubAux fuel rest
      else findallPubAux fuel rest

/-- re.findall of `Published.*[\D]([\d]+)` with IGNORECASE over a string. -/
def findallPub (s : List Char) : List (List Char) :=
  findallPubAux s.length s

/-- The owning index state of sheet_downloader.SheetDownloader: the feature
list, the four derivation flags, the accumulated query results and the
memoized merged polygon (kept as the list of member polygons of the union;
disjointness against the union is tested memberwise, which is point-set
equivalent). -/
structure SheetState where
  features : List PyV
  polygons : Bool
  grid_bbs : Bool
  wfs_id_nos : Bool
  published_dates : Bool
  found_queries : List PyV
  merged_polygon : Option (List (Rect ℚ))

/-- sheet_downloader.get_polygons: for each feature, parse the catalog
geometry and store its first sub-geometry under "polygon"; an empty geometry
would fail in Python (`polygon.geoms[0]`). -/
def get_polygons (s : SheetState) : Except Err SheetState := do
  let features' ← s.features.mapM (fun feature =>
    match pySubscript feature ("geometry") with
    | .geoms (g :: _) => Except.ok (pySet feature ("polygon") (.rect g))
    | _ => Except.error (Err.attributeError ("cannot take first sub-geometry")))
  return { s with features := features', polygons := true }

/-- sheet_downloader.extract_wfs_id_nos: split the dotted identifier, eval the
trailing segment, store it under "wfs_id_no". -/
def extract_wfs_id_nos (s : SheetState) : Except Err SheetState := do
  let features' ← s.features.mapM (fun feature => do
    match pySubscript feature ("id") with
    | .str wfs_id => do
        let wfs_id_no := (wfs_id.splitOn (".")).getLastD ("")
        let n ← pyEvalDigits wfs_id_no
        return pySet feature ("wfs_id_no") (.int n)
    | _ => Except.error (Err.attributeError ("id is not a string")))
  return { s with features := features', wfs_id_nos := true }

/-- Per-feature body of sheet_downloader.extract_published_dates: the findall
over the title, the first capture evaluated on a hit (empty list on a miss),
plus the warning the branch prints. -/
def extractDateFeature (feature : PyV) : Except Err (PyV × List String) := do
  match pySubscript (pySubscript feature ("properties")) ("WFS_TITLE") with
  | .str wfs_title => do
      let published_date := findallPub wfs_title.toList
      let map_name := pyStr (pySubscript (pySubscript feature ("properties")) ("IMAGE"))
      match published_date with
      | [] =>
          let f' := pySet feature ("properties")
            (pySet (pySubscript feature ("properties")) ("published_date") (.list []))
          return (f', [("[WARNING] No published date detected in ") ++ map_name ++ (".")])
      | d :: rest => do
          let n ← pyEvalDigits (String.mk d)
          let f' := pySet feature ("properties")
            (pySet (pySubscript feature ("properties")) ("published_date") (.int n))
          return (f', if rest.isEmpty then [] else
            [("[WARNING] Multiple published dates detected in ") ++ map_name ++ (". Using first date.")])
  | _ => Except.error (Err.attributeError ("WFS_TITLE is not a string"))

/-- sheet_downloader.extract_published_dates over the whole catalog, also
returning the warnings printed along the way. -/
def extract_published_dates (s : SheetState) :
    Except Err (SheetState × List String) := do
  let fw ← s.features.mapM extractDateFeature
  return ({ s with features := fw.map Prod.fst, published_dates := true },
          (fw.map Prod.snd).flatten)

/-- sheet_downloader.get_merged_polygon: derive polygons if needed, then
memoize the union of all feature polygons. -/
def get_merged_polygon (s : SheetState) : Except Err SheetState := do
  let s ← if s.polygons then pure s else get_polygons s
  let rects ← s.features.mapM (fun feature =>
    match pySubscript feature ("polygon") with
    | .rect r => Except.ok r
    | _ => Except.error (Err.attributeError ("feature has no polygon")))
  return { s with merged_polygon := some rects }

/-- Membership of a stored "wfs_id_no" value in the requested list, the
Python test `wfs_id_no in requested_maps` against a list of ints. -/
def pyIntMem (v : PyV) (ids : List ℤ) : Bool :=
  match v with
  | .int n => ids.contains n
  | _ => false

/-- sheet_downloader.query_map_sheets_by_wfs_ids (print omitted): trigger ID
extraction if absent, reset unless appending, then append each matching
feature not already present. -/
def query_map_sheets_by_wfs_ids (s : SheetState) (wfs_ids : List ℤ)
    (append : Bool) : Except Err SheetState := do
  let s ← if s.wfs_id_nos then pure s else extract_wfs_id_nos s
  let found0 := if append then s.found_queries else []
  let found := s.features.foldl
    (fun acc feature =>
      if pyIntMem (pySubscript feature ("wfs_id_no")) wfs_ids then
        if pyMem feature acc then acc else acc ++ [feature]
      else acc)
    found0
  return { s with found_queries := found }

/-- The polygon stored on a feature tested `within` a query polygon
(`map_polygon.within(polygon)`; a non-polygon value would fail in Python). -/
def pyWithin (v : PyV) (q : Rect ℚ) : Bool :=
  match v with
  | .rect r => rectWithin r q
  | _ => false

/-- The polygon stored on a feature tested against `intersects`. -/
def pyIntersects (v : PyV) (q : Rect ℚ) : Bool :=
  match v with
  | .rect r => rectIntersects r q
  | _ => false

/-- The polygon stored on a feature tested against `contains(point)`. -/
def pyContainsPoint (v : PyV) (p : ℚ × ℚ) : Bool :=
  match v with
  | .rect r => rectContainsPoint r p
  | _ => false

/-- The polygon stored on a feature tested against `intersects(line)`. -/
def pyIntersectsLine (v : PyV) (l : Seg) : Bool :=
  match v with
  | .rect r => rectIntersectsLine r l
  | _ => false

/-- sheet_downloader.query_map_sheets_by_polygon (print omitted).  Note the
`within` branch of the source tests `map_polygon not in self.found_queries`
— the polygon object, not the feature — before appending; the model keeps
that test verbatim. -/
def query_map_sheets_by_polygon (s : SheetState) (polygon : Rect ℚ)
    (mode : String) (append : Bool) : Except Err SheetState := do
  if mode = ("within") ∨ mode = ("intersects") then
    let s ← if s.polygons then pure s else get_polygons s
    let found0 := if append then s.found_queries else []
    let found := s.features.foldl
      (fun acc feature =>
        let map_polygon := pySubscript feature ("polygon")
        if mode = ("within") then
          if pyWithin map_polygon polygon then
            if pyMem map_polygon acc then acc else acc ++ [feature]
          else acc
        else
          if pyIntersects map_polygon polygon then
            if pyMem feature acc then acc else acc ++ [feature]
          else acc)
      found0
    return { s with found_queries := found }
  else
    Except.error (Err.notImplementedError
      ("[ERROR] Please use ``mode=\"within\"`` or ``mode=\"intersects\"``."))

/-- sheet_downloader.query_map_sheets_by_coordinates (print omitted). -/
def query_map_sheets_by_coordinates (s : SheetState) (coords : ℚ × ℚ)
    (append : Bool) : Except Err SheetState := do
  let s ← if s.polygons then pure s else get_polygons s
  let found0 := if append then s.found_queries else []
  let found := s.features.foldl
    (fun acc feature =>
      if pyContainsPoint (pySubscript feature ("polygon")) coords then
        if pyMem feature acc then acc else acc ++ [feature]
      else acc)
    found0
  return { s with found_queries := found }

/-- sheet_downloader.query_map_sheets_by_line (print omitted). -/
def query_map_sheets_by_line (s : SheetState) (line : Seg)
    (append : Bool) : Except Err SheetState := do
  let s ← if s.polygons then pure s else get_polygons s
  let found0 := if append then s.found_queries else []
  let found := s.features.foldl
    (fun acc feature =>
      if pyIntersectsLine (pySubscript feature ("polygon")) line then
        if pyMem feature acc then acc else acc ++ [feature]
      else acc)
    found0
  return { s with found_queries := found }

/-- The key walk of the string queries:
`reduce(lambda d, key: d.get(key), keys, feature)`. -/
def walkKeys (feature : PyV) (keys : List String) : Except Err PyV :=
  keys.foldlM pyDictGet feature

/-- One iteration of the query_map_sheets_by_string loop: walk the keys into
the feature, regex-search the stringified field, and append the feature to
the accumulated results when it matches and is new. -/
def queryStringBody (string : String) (keys : List String)
    (acc : List PyV) (feature : PyV) : Except Err (List PyV) := do
  let field_to_search ← walkKeys feature keys
  let m := reSearch string (pyStr field_to_search)
  return if m then
    (if pyMem feature acc then acc else acc ++ [feature])
  else acc

/-- sheet_downloader.query_map_sheets_by_string (print omitted; `keys` is
the list after the None/str normalisation of the source). -/
def query_map_sheets_by_string (s : SheetState) (string : String)
    (keys : List String) (append : Bool) : Except Err SheetState := do
  let found0 := if append then s.found_queries else []
  let found ← s.features.foldlM (queryStringBody string keys) found0
  return { s with found_queries := found }

/-
The download-and-merge orchestration.  The tile downloader, the merger and
the filesystem are external collaborators; an `Env` carries their observable
behaviour, and every call into them is recorded in an effect trace.
-/

/-- External collaborators: which paths exist on disk, and whether the merge
of a named sheet succeeds. -/
structure Env where
  fileExists : String → Bool
  mergeSuccess : String → Bool

/-- A metadata row as built by _save_metadata:
`[map_name, map_url, coords, published_date, grid_bb]`. -/
structure MetaRow where
  name : String
  url : String
  coords : ℝ × ℝ × ℝ × ℝ
  published_date : PyV
  grid_bb : PyV

/-- One observable step of the pipeline. -/
inductive Effect where
  | fetchTiles (map_name : String) (grid_bb : PyV)
  | mergeTiles (map_name : String) (success : Bool)
  | rmCacheDir
  | writeMetadata (rows : List MetaRow)

/-- `"map_" + feature["properties"]["IMAGE"]`. -/
def featureMapName (feature : PyV) : String :=
  ("map_") ++ pyStr (pySubscript (pySubscript feature ("properties")) ("IMAGE"))

/-- sheet_downloader._check_map_sheet_exists: the merger's output folder is
`path_save + "/"` and the target file is `map_<name>.png` under it. -/
def _check_map_sheet_exists (env : Env) (path_save : String) (feature : PyV) :
    Bool :=
  env.fileExists (path_save ++ ("/") ++ featureMapName feature ++ (".png"))

/-- sheet_downloader._download_map: fetch the tiles of the feature's grid
bounding box, merge them, clear the tile cache; reports the merger's
verdict. -/
def _download_map (env : Env) (feature : PyV) : Bool × List Effect :=
  let map_name := featureMapName feature
  let success := env.mergeSuccess map_name
  (success,
    [Effect.fetchTiles map_name (pySubscript feature ("grid_bb")),
     Effect.mergeTiles map_name success,
     Effect.rmCacheDir])

/-- sheet_downloader._save_metadata.  When the published dates have not been
extracted yet, the source triggers the extraction, which mutates the very
dict `feature` aliases; functionally this is the pointwise
`extractDateFeature` applied to `feature` (the extraction is pointwise and
deterministic). -/
noncomputable def _save_metadata (s : SheetState) (feature : PyV) :
    Except Err (SheetState × PyV × MetaRow) := do
  let map_name := featureMapName feature ++ (".png")
  let map_url := pyStr (pySubscript (pySubscript feature ("properties")) ("IMAGEURL"))
  let (s, feature) ←
    if s.published_dates then pure (s, feature)
    else do
      let (s', _warns) ← extract_published_dates s
      let (f', _w) ← extractDateFeature feature
      pure (s', f')
  let published_date := pySubscript (pySubscript feature ("properties")) ("published_date")
  let grid_bb := pySubscript feature ("grid_bb")
  match grid_bb with
  | .gridBB bb => do
      let lower_corner ← get_coordinate_from_index bb.lower_corner
      let upper_corner ← get_coordinate_from_index bb.upper_corner
      return (s, feature,
        { name := map_name, url := map_url,
          coords := (lower_corner.lon, lower_corner.lat, upper_corner.lon, upper_corner.lat),
          published_date := published_date, grid_bb := grid_bb })
  | _ => Except.error (Err.attributeError ("feature has no grid_bb"))

/-- Result of a download call: the index state after the call, the effect
trace, the metadata rows flushed to the metadata file, and the exception if
one was raised. -/
structure DownloadResult where
  state : SheetState
  effects : List Effect
  rowsWritten : List MetaRow
  err : Option Err

/-- The per-feature loop of sheet_downloader._download_map_sheets: skip a
feature whose output file exists unless overwriting, otherwise download and
merge; on success accumulate its metadata row.  An exception propagates, but
the effects that already happened stay in the trace. -/
noncomputable def downloadLoop (env : Env) (path_save : String)
    (overwrite : Bool) :
    SheetState → List PyV → SheetState × List Effect × List MetaRow × Option Err
  | s, [] => (s, [], [], Option.none)
  | s, feature :: rest =>
      if !overwrite && _check_map_sheet_exists env path_save feature then
        downloadLoop env path_save overwrite s rest
      else
        let (success, effs) := _download_map env feature
        if success then
          match _save_metadata s feature with
          | .error e => (s, effs, [], some e)
          | .ok (s', _f', row) =>
              let (s'', effs', rows, err) := downloadLoop env path_save overwrite s' rest
              (s'', effs ++ effs', row :: rows, err)
        else
          let (s'', effs', rows, err) := downloadLoop env path_save overwrite s rest
          (s'', effs ++ effs', rows, err)

/-- sheet_downloader._create_metadata_df, reduced to its input/output
contract: `to_csv(mode="a")` appends the new rows to whatever rows the
metadata file already holds (the header, written only when the file is new,
is not modelled). -/
def _create_metadata_df (metadata_to_save : List MetaRow)
    (existing : Option (List MetaRow)) : List MetaRow :=
  existing.getD [] ++ metadata_to_save

/-- sheet_downloader._download_map_sheets: run the loop, then flush the
accumulated rows.  When the loop raised, the flush is never reached and no
row is written. -/
noncomputable def _download_map_sheets (env : Env) (s : SheetState)
    (features : List PyV) (path_save : String) (overwrite : Bool) :
    DownloadResult :=
  let (s', effs, rows, err) := downloadLoop env path_save overwrite s features
  match err with
  | some e => { state := s', effects := effs, rowsWritten := [], err := some e }
  | Option.none =>
      { state := s', effects := effs ++ [Effect.writeMetadata rows],
        rowsWritten := rows, err := Option.none }

/-- The ValueError guarding every download call before the grid bounding
boxes exist; the specification taxonomy calls it `PreconditionError`. -/
def preconditionErr : Err :=
  Err.valueError ("[ERROR] Please first run ``get_grid_bb()``")

/-- The ValueError raised by download_map_sheets_by_queries on an empty
result set. -/
def noQueryResultsErr : Err :=
  Err.valueError ("[ERROR] No query results found/saved.")

/-- The ValueError raised when no sheet matches the requested WFS ids; the
specification taxonomy calls it `NotFound`. -/
def noSheetsFoundErr : Err :=
  Err.valueError ("[ERROR] No map sheets with given WFS ID numbers found.")

/-- The ValueError raised when the query geometry misses the whole catalog;
the specification taxonomy calls it `OutOfBounds`. -/
def outOfBoundsErr (what : String) : Err :=
  Err.valueError (("[ERROR] ") ++ what ++ (" out of map metadata bounds."))

/-- sheet_downloader.download_all_map_sheets.  The source accepts an
`overwrite` argument but does not forward it to _download_map_sheets (line
607), so the loop always runs with the default False; the model preserves
that. -/
noncomputable def download_all_map_sheets (env : Env) (s : SheetState)
    (path_save : String) (_overwrite : Bool) : DownloadResult :=
  if !s.grid_bbs then
    { state := s, effects := [], rowsWritten := [], err := some preconditionErr }
  else
    _download_map_sheets env s s.features path_save false

/-- sheet_downloader.download_map_sheets_by_wfs_ids: WFS-id extraction is
triggered first if absent, then the grid precondition is checked, then the
disjointness of the requested ids, then the matching features download. -/
noncomputable def download_map_sheets_by_wfs_ids (env : Env) (s : SheetState)
    (wfs_ids : List ℤ) (path_save : String) (overwrite : Bool) :
    DownloadResult :=
  match (if s.wfs_id_nos then Except.ok s else extract_wfs_id_nos s) with
  | .error e => { state := s, effects := [], rowsWritten := [], err := some e }
  | .ok s1 =>
    if !s1.grid_bbs then
      { state := s1, effects := [], rowsWritten := [], err := some preconditionErr }
    else
      if s1.features.all (fun f => !pyIntMem (pySubscript f ("wfs_id_no")) wfs_ids) then
        { state := s1, effects := [], rowsWritten := [], err := some noSheetsFoundErr }
      else
        let features := s1.features.filter
          (fun f => pyIntMem (pySubscript f ("wfs_id_no")) wfs_ids)
        _download_map_sheets env s1 features path_save overwrite

/-- sheet_downloader.download_map_sheets_by_polygon. -/
noncomputable def download_map_sheets_by_polygon (env : Env) (s : SheetState)
    (polygon : Rect ℚ) (mode : String) (path_save : String)
    (overwrite : Bool) : DownloadResult :=
  if mode = ("within") ∨ mode = ("intersects") then
    if !s.grid_bbs then
      { state := s, effects := [], rowsWritten := [], err := some preconditionErr }
    else
      match (if s.merged_polygon.isSome then Except.ok s else get_merged_polygon s) with
      | .error e => { state := s, effects := [], rowsWritten := [], err := some e }
      | .ok s1 =>
        if (s1.merged_polygon.getD []).all (fun r => rectDisjoint r polygon) then
          { state := s1, effects := [], rowsWritten := [],
            err := some (outOfBoundsErr ("Polygon is")) }
        else
          let features := s1.features.filter (fun f =>
            if mode = ("within") then pyWithin (pySubscript f ("polygon")) polygon
            else pyIntersects (pySubscript f ("polygon")) polygon)
          _download_map_sheets env s1 features path_save overwrite
  else
    { state := s, effects := [], rowsWritten := [],
      err := some (Err.notImplementedError
        ("[ERROR] Please use ``mode=\"within\"`` or ``mode=\"intersects\"``.")) }

/-- sheet_downloader.download_map_sheets_by_coordinates. -/
noncomputable def download_map_sheets_by_coordinates (env : Env)
    (s : SheetState) (coords : ℚ × ℚ) (path_save : String)
    (overwrite : Bool) : DownloadResult :=
  if !s.grid_bbs then
    { state := s, effects := [], rowsWritten := [], err := some preconditionErr }
  else
    match (if s.merged_polygon.isSome then Except.ok s else get_merged_polygon s) with
    | .error e => { state := s, effects := [], rowsWritten := [], err := some e }
    | .ok s1 =>
      if (s1.merged_polygon.getD []).all (fun r => rectDisjointPoint r coords) then
        { state := s1, effects := [], rowsWritten := [],
          err := some (outOfBoundsErr ("Coordinates are")) }
      else
        let features := s1.features.filter
          (fun f => pyContainsPoint (pySubscript f ("polygon")) coords)
        _download_map_sheets env s1 features path_save overwrite

/-- sheet_downloader.download_map_sheets_by_line. -/
noncomputable def download_map_sheets_by_line (env : Env) (s : SheetState)
    (line : Seg) (path_save : String) (overwrite : Bool) : DownloadResult :=
  if !s.grid_bbs then
    { state := s, effects := [], rowsWritten := [], err := some preconditionErr }
  else
    match (if s.merged_polygon.isSome then Except.ok s else get_merged_polygon s) with
    | .error e => { state := s, effects := [], rowsWritten := [], err := some e }
    | .ok s1 =>
      if (s1.merged_polygon.getD []).all (fun r => rectDisjointLine r line) then
        { state := s1, effects := [], rowsWritten := [],
          err := some (outOfBoundsErr ("Line is")) }
      else
        let features := s1.features.filter
          (fun f => pyIntersectsLine (pySubscript f ("polygon")) line)
        _download_map_sheets env s1 features path_save overwrite

/-- sheet_downloader.download_map_sheets_by_string (`keys` already
normalised as in the source). -/
noncomputable def download_map_sheets_by_string (env : Env) (s : SheetState)
    (string : String) (keys : List String) (path_save : String)
    (overwrite : Bool) : DownloadResult :=
  if !s.grid_bbs then
    { state := s, effects := [], rowsWritten := [], err := some preconditionErr }
  else
    match s.features.foldlM
      (fun acc feature => do
        let field_to_search ← walkKeys feature keys
        pure (if reSearch string (pyStr field_to_search) then acc ++ [feature] else acc))
      ([] : List PyV) with
    | .error e => { state := s, effects := [], rowsWritten := [], err := some e }
    | .ok features => _download_map_sheets env s features path_save overwrite

/-- sheet_downloader.download_map_sheets_by_queries. -/
noncomputable def download_map_sheets_by_queries (env : Env) (s : SheetState)
    (path_save : String) (overwrite : Bool) : DownloadResult :=
  if !s.grid_bbs then
    { state := s, effects := [], rowsWritten := [], err := some preconditionErr }
  else
    if s.found_queries.isEmpty then
      { state := s, effects := [], rowsWritten := [], err := some noQueryResultsErr }
    else
      _download_map_sheets env s s.found_queries path_save overwrite

/-
Helper lemmas about the embedded primitives.
-/

theorem pyTrunc_intCast (m : ℤ) : pyTrunc (m : ℝ) = m := by
  unfold pyTrunc
  rcases le_or_lt 0 (m : ℝ) with h | h
  · rw [if_pos h, Int.floor_intCast]
  · rw [if_neg (not_le.mpr h), Int.ceil_intCast]

theorem pyTrunc_ofNonneg {x : ℝ} (h : 0 ≤ x) : pyTrunc x = ⌊x⌋ := by
  unfold pyTrunc
  rw [if_pos h]

theorem pyTrunc_le {x : ℝ} (h : 0 ≤ x) : (pyTrunc x : ℝ) ≤ x := by
  rw [pyTrunc_ofNonneg h]
  exact Int.floor_le x

theorem sub_one_lt_pyTrunc (x : ℝ) : x - 1 < (pyTrunc x : ℝ) := by
  unfold pyTrunc
  rcases le_or_lt 0 x with h | h
  · rw [if_pos h]
    exact Int.sub_one_lt_floor x
  · rw [if_neg (not_le.mpr h)]
    have := Int.le_ceil x
    linarith

theorem pyTrunc_mono : Monotone pyTrunc := by
  intro a b hab
  unfold pyTrunc
  rcases le_or_lt 0 a with ha | ha
  · rw [if_pos ha, if_pos (ha.trans hab)]
    exact Int.floor_le_floor hab
  · rcases le_or_lt 0 b with hb | hb
    · rw [if_neg (not_le.mpr ha), if_pos hb]
      calc ⌈a⌉ ≤ 0 := Int.ceil_le.mpr (by exact_mod_cast ha.le)
        _ ≤ ⌊b⌋ := Int.floor_nonneg.mpr hb
    · rw [if_neg (not_le.mpr ha), if_neg (not_le.mpr hb)]
      exact Int.ceil_le_ceil hab

theorem degrees_radians (θ : ℝ) : pyRadians (pyDegrees θ) = θ := by
  unfold pyRadians pyDegrees
  field_simp

theorem roundtrip_core (x y z : ℤ) (hz : 0 ≤ z) :
    (_get_coordinate_from_index x y z).bind
      (fun ll => _get_index_from_coordinate ll.1 ll.2 z) = Except.ok (x, y) := by
  have hn : ((2 : ℝ) ^ z.toNat) ≠ 0 := pow_ne_zero _ two_ne_zero
  simp only [_get_coordinate_from_index, _get_index_from_coordinate, if_pos hz]
  simp only [Except.bind]
  have hx : (((((x : ℝ) / 2 ^ z.toNat) * 360 - 180) + 180) / 360 * 2 ^ z.toNat) = (x : ℝ) := by
    field_simp
    ring
  have hy : ((1 - Real.arsinh (Real.tan (pyRadians (pyDegrees
      (Real.arctan (Real.sinh (π * (1 - 2 * (y : ℝ) / 2 ^ z.toNat))))))) / π) / 2
      * 2 ^ z.toNat) = (y : ℝ) := by
    rw [degrees_radians, Real.tan_arctan, Real.arsinh_sinh]
    field_simp
    ring
  rw [hx, hy, pyTrunc_intCast, pyTrunc_intCast]

theorem roundtrip_wrapped (gi : GridIndex) (hz : 0 ≤ gi.z) :
    (get_coordinate_from_index gi).bind
      (fun c => get_index_from_coordinate c gi.z) = Except.ok gi := by
  have h := roundtrip_core gi.x gi.y gi.z hz
  unfold get_coordinate_from_index get_index_from_coordinate
  cases hcoord : _get_coordinate_from_index gi.x gi.y gi.z with
  | error e =>
      rw [hcoord] at h
      simp [Except.bind] at h
  | ok ll =>
      rw [hcoord] at h
      simp only [Except.bind] at h
      simp only [hcoord, Except.bind, bind, Except.bind, pure, Except.pure]
      rw [h]

/-- C1: for every zoom ≥ 0 and coordinate in valid lat/lon ranges, the round
trip index_to_coordinate ∘ coordinate_to_index lands on the upper-left corner
of the tile addressed by coordinate_to_index, and the reverse composition
coordinate_to_index ∘ index_to_coordinate is the identity on tile indices
0 ≤ x, y < 2^zoom (so round-tripping a tile's own corner returns that very
corner, not a neighbour). -/
theorem C1_roundtrip_idempotent :
    ∀ (lat lon : ℝ) (zoom : ℤ), -90 ≤ lat → lat ≤ 90 → -180 ≤ lon → lon ≤ 180 →
      0 ≤ zoom →
      (∃ gi : GridIndex,
        get_index_from_coordinate ⟨lat, lon⟩ zoom = Except.ok gi ∧
        (get_index_from_coordinate ⟨lat, lon⟩ zoom).bind get_coordinate_from_index
          = get_coordinate_from_index gi ∧
        (get_coordinate_from_index gi).bind (fun c => get_index_from_coordinate c zoom)
          = Except.ok gi) ∧
      ∀ (x y : ℤ), 0 ≤ x → x < 2 ^ zoom.toNat → 0 ≤ y → y < 2 ^ zoom.toNat →
        (get_coordinate_from_index ⟨x, y, zoom⟩).bind
          (fun c => get_index_from_coordinate c zoom) = Except.ok ⟨x, y, zoom⟩ := by
  intro lat lon zoom _ _ _ _ hz
  constructor
  · cases hxy : _get_index_from_coordinate lon lat zoom with
    | error e =>
        simp [_get_index_from_coordinate, if_pos hz] at hxy
    | ok p =>
        refine ⟨⟨p.1, p.2, zoom⟩, ?_, ?_, ?_⟩
        · simp [get_index_from_coordinate, hxy, Except.bind, bind, pure, Except.pure]
        · simp [get_index_from_coordinate, hxy, Except.bind, bind, pure, Except.pure]
        · exact roundtrip_wrapped ⟨p.1, p.2, zoom⟩ hz
  · intro x y _ _ _ _
    exact roundtrip_wrapped ⟨x, y, zoom⟩ hz

/-- C1 witness: the identity at tile (0,0) of zoom 0. -/
theorem C1_witness :
    (0 : ℝ) ≤ 90 ∧
    (get_coordinate_from_index ⟨0, 0, 0⟩).bind
      (fun c => get_index_from_coordinate c 0) = Except.ok ⟨0, 0, 0⟩ :=
  ⟨by norm_num,
   (C1_roundtrip_idempotent 0 0 0 (by norm_num) (by norm_num) (by norm_num)
      (by norm_num) (by norm_num)).2 0 0 le_rfl (by norm_num) le_rfl (by norm_num)⟩

/-- C4: for every zoom < 0 both conversion functions fail with the
InvalidArgument failure (the assertion on the zoom argument) and return no
result. -/
theorem C4_negative_zoom (lon lat : ℝ) (x y zoom : ℤ) (h : zoom < 0) :
    _get_index_from_coordinate lon lat zoom = Except.error invalidZoom ∧
    _get_coordinate_from_index x y zoom = Except.error invalidZoom ∧
    get_index_from_coordinate ⟨lat, lon⟩ zoom = Except.error invalidZoom ∧
    get_coordinate_from_index ⟨x, y, zoom⟩ = Except.error invalidZoom := by
  have hz : ¬ (0 : ℤ) ≤ zoom := not_le.mpr h
  refine ⟨?_, ?_, ?_, ?_⟩ <;>
    simp [_get_index_from_coordinate, _get_coordinate_from_index,
      get_index_from_coordinate, get_coordinate_from_index, hz,
      Except.bind, bind, pure, Except.pure]

/-- C4 witness: both conversions fail at zoom -1. -/
theorem C4_witness :
    (-1 : ℤ) < 0 ∧
    (_get_index_from_coordinate 0 0 (-1) = Except.error invalidZoom ∧
     _get_coordinate_from_index 0 0 (-1) = Except.error invalidZoom ∧
     get_index_from_coordinate ⟨0, 0⟩ (-1) = Except.error invalidZoom ∧
     get_coordinate_from_index ⟨0, 0, -1⟩ = Except.error invalidZoom) :=
  ⟨by norm_num, C4_negative_zoom 0 0 0 0 (-1) (by norm_num)⟩

/-- C2 (amended): coordinate_to_index computes x and y with Python int(),
i.e. truncation toward zero, which agrees with the claimed floor exactly when
the pre-rounding value is nonnegative — always for x when lon ≥ -180, and
for y whenever the Mercator pre-value is nonnegative (latitudes within the
Web-Mercator range); near the poles the pre-floor y is negative and the code
truncates instead of flooring. -/
theorem C2_floor_on_nonneg (lon lat : ℝ) (zoom : ℤ) (hz : 0 ≤ zoom)
    (hlon : -180 ≤ lon)
    (hy : 0 ≤ (1 - Real.arsinh (Real.tan (pyRadians lat)) / π) / 2 * 2 ^ zoom.toNat) :
    _get_index_from_coordinate lon lat zoom =
      Except.ok (⌊(lon + 180) / 360 * 2 ^ zoom.toNat⌋,
        ⌊(1 - Real.arsinh (Real.tan (pyRadians lat)) / π) / 2 * 2 ^ zoom.toNat⌋) := by
  have hx : (0 : ℝ) ≤ (lon + 180) / 360 * 2 ^ zoom.toNat := by
    apply mul_nonneg
    · apply div_nonneg (by linarith) (by norm_num)
    · positivity
  simp only [_get_index_from_coordinate, if_pos hz]
  rw [pyTrunc_ofNonneg hx, pyTrunc_ofNonneg hy]

/-- C2 witness: the floor form of the index at the origin, zoom 0. -/
theorem C2_witness :
    (0 : ℝ) ≤ (1 - Real.arsinh (Real.tan (pyRadians 0)) / π) / 2 * 2 ^ (0 : ℤ).toNat ∧
    _get_index_from_coordinate 0 0 0 =
      Except.ok (⌊(0 + 180 : ℝ) / 360 * 2 ^ (0 : ℤ).toNat⌋,
        ⌊(1 - Real.arsinh (Real.tan (pyRadians 0)) / π) / 2 * 2 ^ (0 : ℤ).toNat⌋) := by
  have h0 : pyRadians 0 = 0 := by simp [pyRadians]
  have hy : (0 : ℝ) ≤ (1 - Real.arsinh (Real.tan (pyRadians 0)) / π) / 2 * 2 ^ (0 : ℤ).toNat := by
    rw [h0]
    norm_num [Real.tan_zero, Real.arsinh_zero]
  exact ⟨hy, C2_floor_on_nonneg 0 0 0 (by norm_num) (by norm_num) hy⟩

/-- C2 counterexample: at the in-range latitude degrees(arctan(sinh(2π)))
(≈ 89.8°) and zoom 0 the code returns y = 0 (truncation toward zero of -1/2)
whereas the claimed floor formula gives -1, so the claim "y is computed with
floor, in particular when the pre-floor value is negative" is false of the
code. -/
theorem C2_counterexample :
    -90 ≤ pyDegrees (Real.arctan (Real.sinh (2 * π))) ∧
    pyDegrees (Real.arctan (Real.sinh (2 * π))) ≤ 90 ∧
    _get_index_from_coordinate 0 (pyDegrees (Real.arctan (Real.sinh (2 * π)))) 0
      = Except.ok (0, 0) ∧
    ⌊(1 - Real.arsinh (Real.tan (pyRadians (pyDegrees (Real.arctan (Real.sinh (2 * π)))))) / π) / 2
        * 2 ^ (0 : ℤ).toNat⌋ = -1 ∧
    (0 : ℤ) ≠ -1 := by
  have hπ := Real.pi_pos
  have hθpos : 0 < Real.arctan (Real.sinh (2 * π)) := by
    have h1 : (0 : ℝ) < Real.sinh (2 * π) := Real.sinh_pos_iff.mpr (by linarith)
    have h2 := Real.arctan_strictMono h1
    simpa [Real.arctan_zero] using h2
  have hθlt : Real.arctan (Real.sinh (2 * π)) < π / 2 := Real.arctan_lt_pi_div_two _
  have hval : (1 - Real.arsinh (Real.tan (pyRadians (pyDegrees
      (Real.arctan (Real.sinh (2 * π)))))) / π) / 2 * 2 ^ (0 : ℤ).toNat = -(1/2) := by
    rw [degrees_radians, Real.tan_arctan, Real.arsinh_sinh]
    have : 2 * π / π = 2 := by field_simp
    simp [this]
    norm_num
  refine ⟨?_, ?_, ?_, ?_, by decide⟩
  · unfold pyDegrees
    have : (0 : ℝ) ≤ Real.arctan (Real.sinh (2 * π)) * 180 / π :=
      div_nonneg (mul_nonneg hθpos.le (by norm_num)) hπ.le
    linarith
  · unfold pyDegrees
    rw [div_le_iff₀ hπ]
    nlinarith
  · simp only [_get_index_from_coordinate, if_pos (by norm_num : (0:ℤ) ≤ 0)]
    rw [hval]
    have hx : ((0 : ℝ) + 180) / 360 * 2 ^ (0 : ℤ).toNat = 1/2 := by norm_num
    rw [hx]
    have h1 : pyTrunc (1/2 : ℝ) = 0 := by
      rw [pyTrunc_ofNonneg (by norm_num)]
      norm_num
    have h2 : pyTrunc (-(1/2) : ℝ) = 0 := by
      unfold pyTrunc
      rw [if_neg (by norm_num)]
      norm_num
    rw [h1, h2]
  · rw [hval]
    norm_num

theorem radians_degrees (d : ℝ) : pyDegrees (pyRadians d) = d := by
  unfold pyRadians pyDegrees
  field_simp

theorem tileLon_tileXVal (lon n : ℝ) (hn : n ≠ 0) : tileLon (tileXVal lon n) n = lon := by
  unfold tileLon tileXVal
  field_simp
  ring

theorem tileLat_tileYVal (lat n : ℝ) (hn : n ≠ 0)
    (h1 : -90 < lat) (h2 : lat < 90) : tileLat (tileYVal lat n) n = lat := by
  have hπ := Real.pi_pos
  have harg : π * (1 - 2 * tileYVal lat n / n) = Real.arsinh (Real.tan (pyRadians lat)) := by
    unfold tileYVal
    field_simp
    ring
  unfold tileLat
  rw [harg, Real.sinh_arsinh, Real.arctan_tan, radians_degrees]
  · unfold pyRadians
    nlinarith
  · unfold pyRadians
    nlinarith

theorem tileLon_mono (n : ℝ) (hn : 0 < n) {s t : ℝ} (h : s ≤ t) :
    tileLon s n ≤ tileLon t n := by
  unfold tileLon
  have : s / n ≤ t / n := div_le_div_of_nonneg_right h hn.le
  nlinarith

theorem tileLat_anti (n : ℝ) (hn : 0 < n) {s t : ℝ} (h : s ≤ t) :
    tileLat t n ≤ tileLat s n := by
  unfold tileLat
  have h1 : 2 * t / n ≥ 2 * s / n := by
    apply div_le_div_of_nonneg_right _ hn.le
    linarith
  have h2 : Real.sinh (π * (1 - 2 * t / n)) ≤ Real.sinh (π * (1 - 2 * s / n)) := by
    rw [Real.sinh_le_sinh]
    have hπ := Real.pi_pos
    nlinarith
  have h3 := Real.arctan_strictMono.monotone h2
  unfold pyDegrees
  have hπ := Real.pi_pos
  have := div_le_div_of_nonneg_right (mul_le_mul_of_nonneg_right h3 (by norm_num : (0:ℝ) ≤ 180)) hπ.le
  linarith

theorem tileYVal_anti (n : ℝ) (hn : 0 < n) {a b : ℝ}
    (ha : -90 < a) (hb : b < 90) (hab : a ≤ b) :
    tileYVal b n ≤ tileYVal a n := by
  unfold tileYVal
  have hπ := Real.pi_pos
  have hra : -(π/2) < pyRadians a := by unfold pyRadians; nlinarith
  have hrb : pyRadians b < π/2 := by unfold pyRadians; nlinarith
  have hr : pyRadians a ≤ pyRadians b := by
    unfold pyRadians
    have := div_le_div_of_nonneg_right (mul_le_mul_of_nonneg_right hab hπ.le) (by norm_num : (0:ℝ) ≤ 180)
    linarith
  have htan : Real.tan (pyRadians a) ≤ Real.tan (pyRadians b) := by
    rcases eq_or_lt_of_le hr with he | hlt
    · rw [he]
    · exact (Real.tan_lt_tan_of_lt_of_lt_pi_div_two hra hrb hlt).le
  have hasinh : Real.arsinh (Real.tan (pyRadians a)) ≤ Real.arsinh (Real.tan (pyRadians b)) :=
    Real.arsinh_le_arsinh.mpr htan
  have : Real.arsinh (Real.tan (pyRadians a)) / π ≤ Real.arsinh (Real.tan (pyRadians b)) / π :=
    div_le_div_of_nonneg_right hasinh hπ.le
  nlinarith

theorem tileLon_strict (n : ℝ) (hn : 0 < n) {s t : ℝ} (h : s < t) :
    tileLon s n < tileLon t n := by
  unfold tileLon
  have hd : s / n < t / n := by gcongr
  nlinarith

theorem get_grid_bb_eval (p : Rect ℝ) (zoom : ℤ) (hz : 0 ≤ zoom) :
    get_grid_bb_from_polygon p zoom = Except.ok
      { lower_corner :=
          { x := min (pyTrunc (tileXVal p.maxx (2 ^ zoom.toNat)))
                     (pyTrunc (tileXVal p.minx (2 ^ zoom.toNat))),
            y := min (pyTrunc (tileYVal p.miny (2 ^ zoom.toNat)))
                     (pyTrunc (tileYVal p.maxy (2 ^ zoom.toNat))),
            z := zoom },
        upper_corner :=
          { x := max (pyTrunc (tileXVal p.maxx (2 ^ zoom.toNat)))
                     (pyTrunc (tileXVal p.minx (2 ^ zoom.toNat))),
            y := max (pyTrunc (tileYVal p.miny (2 ^ zoom.toNat)))
                     (pyTrunc (tileYVal p.maxy (2 ^ zoom.toNat))),
            z := zoom } } := by
  unfold get_grid_bb_from_polygon get_index_from_coordinate
  simp only [_get_index_from_coordinate, if_pos hz, Rect.bounds, Except.bind, bind,
    pure, Except.pure, mkGridBoundingBox, if_pos rfl, if_true, tileXVal, tileYVal,
    Rect.minx, Rect.maxx, Rect.miny, Rect.maxy]

theorem get_polygon_eval (bb : GridBoundingBox)
    (hz1 : 0 ≤ bb.lower_corner.z) (hz2 : 0 ≤ bb.upper_corner.z) :
    get_polygon_from_grid_bb bb = Except.ok
      { x1 := tileLon (bb.lower_corner.x : ℝ) (2 ^ bb.lower_corner.z.toNat),
        y1 := tileLat (bb.lower_corner.y : ℝ) (2 ^ bb.lower_corner.z.toNat),
        x2 := tileLon (bb.upper_corner.x : ℝ) (2 ^ bb.upper_corner.z.toNat),
        y2 := tileLat (bb.upper_corner.y : ℝ) (2 ^ bb.upper_corner.z.toNat) } := by
  unfold get_polygon_from_grid_bb get_coordinate_from_index create_polygon_from_latlons
  simp only [_get_coordinate_from_index, if_pos hz1, if_pos hz2, Except.bind, bind,
    pure, Except.pure, tileLon, tileLat]

theorem Rect.minx_mk {α : Type} [LinearOrder α] (a b c d : α) :
    Rect.minx ⟨a, b, c, d⟩ = min a c := rfl

theorem Rect.maxx_mk {α : Type} [LinearOrder α] (a b c d : α) :
    Rect.maxx ⟨a, b, c, d⟩ = max a c := rfl

theorem Rect.miny_mk {α : Type} [LinearOrder α] (a b c d : α) :
    Rect.miny ⟨a, b, c, d⟩ = min b d := rfl

theorem Rect.maxy_mk {α : Type} [LinearOrder α] (a b c d : α) :
    Rect.maxy ⟨a, b, c, d⟩ = max b d := rfl

theorem tileLon_sub_one (t n : ℝ) (hn : n ≠ 0) :
    tileLon (t - 1) n = tileLon t n - 360 / n := by
  unfold tileLon
  field_simp
  ring

/-- C3 (amended): for a polygon within the valid longitude range and the
Web-Mercator latitude range, the bounds of
grid_bb_to_polygon(polygon_to_grid_bb(p, zoom)) are a superset of p's bounds
on the west (min lon) and north (max lat) sides only: min lon never grows
and max lat never drops.  On the east and south sides the round trip can
strictly shrink the bounds — by strictly less than one tile width on the
east — because get_polygon_from_grid_bb builds the rectangle from the
upper-left corners of both corner tiles. -/
theorem C3_roundtrip_bounds (p : Rect ℝ) (zoom : ℤ) (hz : 0 ≤ zoom)
    (hlon : -180 ≤ p.minx) (hlat1 : -90 < p.miny) (hlat2 : p.maxy < 90)
    (hmerc : 0 ≤ tileYVal p.maxy (2 ^ zoom.toNat)) :
    ∃ q : Rect ℝ,
      (get_grid_bb_from_polygon p zoom).bind get_polygon_from_grid_bb = Except.ok q ∧
      q.minx ≤ p.minx ∧ p.maxy ≤ q.maxy ∧
      p.miny ≤ q.miny ∧ q.maxx ≤ p.maxx ∧
      p.maxx - 360 / 2 ^ zoom.toNat < q.maxx := by
  have hn : (0 : ℝ) < 2 ^ zoom.toNat := by positivity
  set n : ℝ := 2 ^ zoom.toNat with hndef
  have hxy : p.minx ≤ p.maxx := min_le_max
  have hyy : p.miny ≤ p.maxy := min_le_max
  have hlat1' : -90 < p.maxy := lt_of_lt_of_le hlat1 hyy
  have hlat2' : p.miny < 90 := lt_of_le_of_lt hyy hlat2
  -- x pre-values are nonnegative
  have hxv1 : (0 : ℝ) ≤ tileXVal p.minx n := by
    unfold tileXVal
    apply mul_nonneg (div_nonneg (by linarith) (by norm_num)) hn.le
  have hxv2 : (0 : ℝ) ≤ tileXVal p.maxx n := by
    unfold tileXVal
    apply mul_nonneg (div_nonneg (by linarith) (by norm_num)) hn.le
  -- y pre-values: the south one dominates and both are nonnegative
  have hyv : tileYVal p.maxy n ≤ tileYVal p.miny n :=
    tileYVal_anti n hn hlat1 hlat2 hyy
  have hyv1 : (0 : ℝ) ≤ tileYVal p.miny n := le_trans hmerc hyv
  -- index ordering
  have hxvm : tileXVal p.minx n ≤ tileXVal p.maxx n := by
    unfold tileXVal
    apply mul_le_mul_of_nonneg_right (div_le_div_of_nonneg_right (by linarith) (by norm_num)) hn.le
  have hxi : pyTrunc (tileXVal p.minx n) ≤ pyTrunc (tileXVal p.maxx n) :=
    pyTrunc_mono hxvm
  have hyi : pyTrunc (tileYVal p.maxy n) ≤ pyTrunc (tileYVal p.miny n) :=
    pyTrunc_mono hyv
  -- evaluate the pipeline
  have hbb := get_grid_bb_eval p zoom hz
  rw [← hndef] at hbb
  have hxiR : ((pyTrunc (tileXVal p.minx n) : ℤ) : ℝ) ≤ ((pyTrunc (tileXVal p.maxx n) : ℤ) : ℝ) :=
    Int.cast_le.mpr hxi
  have hyiR : ((pyTrunc (tileYVal p.maxy n) : ℤ) : ℝ) ≤ ((pyTrunc (tileYVal p.miny n) : ℤ) : ℝ) :=
    Int.cast_le.mpr hyi
  have hlon_le : tileLon ((pyTrunc (tileXVal p.minx n) : ℤ) : ℝ) n ≤
      tileLon ((pyTrunc (tileXVal p.maxx n) : ℤ) : ℝ) n := tileLon_mono n hn hxiR
  have hlat_le : tileLat ((pyTrunc (tileYVal p.miny n) : ℤ) : ℝ) n ≤
      tileLat ((pyTrunc (tileYVal p.maxy n) : ℤ) : ℝ) n := tileLat_anti n hn hyiR
  refine ⟨{ x1 := tileLon ((pyTrunc (tileXVal p.minx n) : ℤ) : ℝ) n,
            y1 := tileLat ((pyTrunc (tileYVal p.maxy n) : ℤ) : ℝ) n,
            x2 := tileLon ((pyTrunc (tileXVal p.maxx n) : ℤ) : ℝ) n,
            y2 := tileLat ((pyTrunc (tileYVal p.miny n) : ℤ) : ℝ) n }, ?_, ?_, ?_, ?_, ?_, ?_⟩
  · rw [hbb]
    simp only [Except.bind]
    rw [get_polygon_eval _ (by exact hz) (by exact hz)]
    rw [← hndef]
    simp only [min_eq_right hxi, max_eq_left hxi, min_eq_right hyi, max_eq_left hyi]
  · rw [Rect.minx_mk, min_eq_left hlon_le]
    calc tileLon ((pyTrunc (tileXVal p.minx n) : ℤ) : ℝ) n
        ≤ tileLon (tileXVal p.minx n) n := tileLon_mono n hn (pyTrunc_le hxv1)
      _ = p.minx := tileLon_tileXVal _ _ hn.ne'
  · show p.maxy ≤ max (tileLat ((pyTrunc (tileYVal p.maxy n) : ℤ) : ℝ) n)
        (tileLat ((pyTrunc (tileYVal p.miny n) : ℤ) : ℝ) n)
    rw [max_eq_left hlat_le]
    calc p.maxy = tileLat (tileYVal p.maxy n) n :=
          (tileLat_tileYVal _ _ hn.ne' hlat1' hlat2).symm
      _ ≤ tileLat ((pyTrunc (tileYVal p.maxy n) : ℤ) : ℝ) n :=
          tileLat_anti n hn (pyTrunc_le hmerc)
  · show p.miny ≤ min (tileLat ((pyTrunc (tileYVal p.maxy n) : ℤ) : ℝ) n)
        (tileLat ((pyTrunc (tileYVal p.miny n) : ℤ) : ℝ) n)
    rw [min_eq_right hlat_le]
    calc p.miny = tileLat (tileYVal p.miny n) n :=
          (tileLat_tileYVal _ _ hn.ne' hlat1 hlat2').symm
      _ ≤ tileLat ((pyTrunc (tileYVal p.miny n) : ℤ) : ℝ) n :=
          tileLat_anti n hn (pyTrunc_le hyv1)
  · rw [Rect.maxx_mk, max_eq_right hlon_le]
    calc tileLon ((pyTrunc (tileXVal p.maxx n) : ℤ) : ℝ) n
        ≤ tileLon (tileXVal p.maxx n) n := tileLon_mono n hn (pyTrunc_le hxv2)
      _ = p.maxx := tileLon_tileXVal _ _ hn.ne'
  · show p.maxx - 360 / n < max (tileLon ((pyTrunc (tileXVal p.minx n) : ℤ) : ℝ) n)
        (tileLon ((pyTrunc (tileXVal p.maxx n) : ℤ) : ℝ) n)
    rw [max_eq_right hlon_le]
    calc p.maxx - 360 / n
        = tileLon (tileXVal p.maxx n) n - 360 / n := by
          rw [tileLon_tileXVal _ _ hn.ne']
      _ = tileLon (tileXVal p.maxx n - 1) n := (tileLon_sub_one _ _ hn.ne').symm
      _ < tileLon ((pyTrunc (tileXVal p.maxx n) : ℤ) : ℝ) n :=
          tileLon_strict n hn (sub_one_lt_pyTrunc _)

/-- C3 witness: the amended bound relations at the degenerate rectangle
lon ∈ [0,10], lat = 0, zoom 0. -/
theorem C3_witness :
    ((0 : ℤ) ≤ 0 ∧ -180 ≤ (⟨0, 0, 10, 0⟩ : Rect ℝ).minx ∧
      0 ≤ tileYVal (⟨0, 0, 10, 0⟩ : Rect ℝ).maxy (2 ^ (0 : ℤ).toNat)) ∧
    (∃ q : Rect ℝ,
      (get_grid_bb_from_polygon ⟨0, 0, 10, 0⟩ 0).bind get_polygon_from_grid_bb = Except.ok q ∧
      q.minx ≤ (⟨0, 0, 10, 0⟩ : Rect ℝ).minx ∧
      (⟨0, 0, 10, 0⟩ : Rect ℝ).maxy ≤ q.maxy ∧
      (⟨0, 0, 10, 0⟩ : Rect ℝ).miny ≤ q.miny ∧
      q.maxx ≤ (⟨0, 0, 10, 0⟩ : Rect ℝ).maxx ∧
      (⟨0, 0, 10, 0⟩ : Rect ℝ).maxx - 360 / 2 ^ (0 : ℤ).toNat < q.maxx) := by
  have hmerc : (0 : ℝ) ≤ tileYVal (⟨0, 0, 10, 0⟩ : Rect ℝ).maxy (2 ^ (0 : ℤ).toNat) := by
    norm_num [tileYVal, pyRadians, Rect.maxy, Real.tan_zero, Real.arsinh_zero]
  have hlon : (-180 : ℝ) ≤ (⟨0, 0, 10, 0⟩ : Rect ℝ).minx := by norm_num [Rect.minx]
  exact ⟨⟨le_refl 0, hlon, hmerc⟩,
    C3_roundtrip_bounds ⟨0, 0, 10, 0⟩ 0 (le_refl 0) hlon
      (by norm_num [Rect.miny]) (by norm_num [Rect.maxy]) hmerc⟩

/-- C3 counterexample: for the rectangle lon ∈ [0,10], lat = 0 at zoom 0 the
round trip returns the degenerate rectangle at lon = -180 (the upper-left
corner of tile (0,0)), whose max-lon bound -180 strictly shrinks the
original max-lon bound 10 — the claimed superset property is false. -/
theorem C3_counterexample :
    ∃ q : Rect ℝ,
      (get_grid_bb_from_polygon ⟨0, 0, 10, 0⟩ 0).bind get_polygon_from_grid_bb = Except.ok q ∧
      q.maxx < (⟨0, 0, 10, 0⟩ : Rect ℝ).maxx := by
  have hxv10 : pyTrunc (tileXVal (10 : ℝ) (2 ^ (0 : ℤ).toNat)) = 0 := by
    rw [show tileXVal (10 : ℝ) (2 ^ (0 : ℤ).toNat) = 19/36 by norm_num [tileXVal]]
    rw [pyTrunc_ofNonneg (by norm_num)]
    norm_num
  have hxv0 : pyTrunc (tileXVal (0 : ℝ) (2 ^ (0 : ℤ).toNat)) = 0 := by
    rw [show tileXVal (0 : ℝ) (2 ^ (0 : ℤ).toNat) = 1/2 by norm_num [tileXVal]]
    rw [pyTrunc_ofNonneg (by norm_num)]
    norm_num
  have hyv0 : pyTrunc (tileYVal (0 : ℝ) (2 ^ (0 : ℤ).toNat)) = 0 := by
    rw [show tileYVal (0 : ℝ) (2 ^ (0 : ℤ).toNat) = 1/2 by
      norm_num [tileYVal, pyRadians, Real.tan_zero, Real.arsinh_zero]]
    rw [pyTrunc_ofNonneg (by norm_num)]
    norm_num
  have hbb := get_grid_bb_eval ⟨0, 0, 10, 0⟩ 0 (le_refl 0)
  rw [show (⟨0, 0, 10, 0⟩ : Rect ℝ).maxx = (10 : ℝ) by norm_num [Rect.maxx],
      show (⟨0, 0, 10, 0⟩ : Rect ℝ).minx = (0 : ℝ) by norm_num [Rect.minx],
      show (⟨0, 0, 10, 0⟩ : Rect ℝ).maxy = (0 : ℝ) by norm_num [Rect.maxy],
      show (⟨0, 0, 10, 0⟩ : Rect ℝ).miny = (0 : ℝ) by norm_num [Rect.miny],
      hxv10, hxv0, hyv0] at hbb
  refine ⟨{ x1 := tileLon ((0 : ℤ) : ℝ) (2 ^ (0 : ℤ).toNat),
            y1 := tileLat ((0 : ℤ) : ℝ) (2 ^ (0 : ℤ).toNat),
            x2 := tileLon ((0 : ℤ) : ℝ) (2 ^ (0 : ℤ).toNat),
            y2 := tileLat ((0 : ℤ) : ℝ) (2 ^ (0 : ℤ).toNat) }, ?_, ?_⟩
  · rw [hbb]
    simp only [Except.bind]
    rw [get_polygon_eval _ (le_refl 0) (le_refl 0)]
    norm_num
  · show max (tileLon ((0 : ℤ) : ℝ) (2 ^ (0 : ℤ).toNat))
        (tileLon ((0 : ℤ) : ℝ) (2 ^ (0 : ℤ).toNat)) < (⟨0, 0, 10, 0⟩ : Rect ℝ).maxx
    norm_num [tileLon, Rect.maxx]

/-- C5: the claim that re-running any query with replace_results=False leaves
found_queries unchanged fails on query_map_sheets_by_polygon in mode
"within": the source tests `map_polygon not in self.found_queries` — the
shapely polygon against a list of feature dicts, which never matches — so a
second appending run duplicates the feature, contradicting the code's own
"only append if new item" comment.  This theorem evaluates the code at the
failing input: one catalog feature within the query polygon, queried twice. -/
theorem C5_within_requery_duplicates :
    ((query_map_sheets_by_polygon
        { features := [PyV.dict [(("polygon" : String), PyV.rect ⟨2, 2, 3, 3⟩)]],
          polygons := true, grid_bbs := false, wfs_id_nos := false,
          published_dates := false, found_queries := [],
          merged_polygon := Option.none }
        ⟨0, 0, 10, 10⟩ ("within") false).bind
      (fun s1 => query_map_sheets_by_polygon s1 ⟨0, 0, 10, 10⟩ ("within") true)).map
        (fun s2 => s2.found_queries)
      = Except.ok [PyV.dict [(("polygon" : String), PyV.rect ⟨2, 2, 3, 3⟩)],
                   PyV.dict [(("polygon" : String), PyV.rect ⟨2, 2, 3, 3⟩)]] ∧
    [PyV.dict [(("polygon" : String), PyV.rect ⟨2, 2, 3, 3⟩)],
     PyV.dict [(("polygon" : String), PyV.rect ⟨2, 2, 3, 3⟩)]].length ≠
      [PyV.dict [(("polygon" : String), PyV.rect ⟨2, 2, 3, 3⟩)]].length := by
  constructor
  · rfl
  · simp

/-- C7 counterexample: with keys ["a","b"] and a feature record that lacks
"a", the key walk calls `.get` on None and the whole query crashes with
AttributeError instead of short-circuiting to "no match". -/
theorem C7_counterexample :
    query_map_sheets_by_string
      { features := [PyV.dict []], polygons := false, grid_bbs := false,
        wfs_id_nos := false, published_dates := false, found_queries := [],
        merged_polygon := Option.none }
      ("x") [("a"), ("b")] false
      = Except.error (Err.attributeError ("object has no attribute get")) := by
  rfl

/-- A foldlM whose body succeeds on every element satisfying P succeeds on
every list of such elements. -/
theorem foldlM_body_ok (g : List PyV → PyV → Except Err (List PyV))
    (P : PyV → Prop)
    (hg : ∀ acc f, P f → ∃ r, g acc f = Except.ok r) :
    ∀ (features : List PyV) (acc : List PyV),
      (∀ f ∈ features, P f) →
      ∃ r, features.foldlM g acc = Except.ok r := by
  intro features
  induction features with
  | nil => exact fun acc _ => ⟨acc, rfl⟩
  | cons f rest ih =>
      intro acc hwf
      obtain ⟨r1, hr1⟩ := hg acc f (hwf f (List.mem_cons_self f rest))
      obtain ⟨r2, hr2⟩ := ih r1 (fun g' hg' => hwf g' (List.mem_cons_of_mem f hg'))
      refine ⟨r2, ?_⟩
      simp only [List.foldlM, hr1, Except.bind, bind]
      exact hr2

/-- C7 (amended): the substring query never crashes when every feature is a
dict and the key list has at most one key — with no keys the whole record is
searched, and a single missing key yields None, which is searched as the
string "None" (a possible spurious match, not a crash).  When a missing key
is followed by further keys the walk raises AttributeError (see the
counterexample), so the original "never crashes" claim only survives in this
restricted form. -/
theorem C7_short_key_walk_safe (s : SheetState) (string : String) (k : String)
    (append : Bool)
    (hd : ∀ f ∈ s.features, ∃ kvs, f = PyV.dict kvs) :
    (∃ s', query_map_sheets_by_string s string [] append = Except.ok s') ∧
    (∃ s', query_map_sheets_by_string s string [k] append = Except.ok s') ∧
    (∀ (kvs : List (String × PyV)) (k' : String),
      List.lookup k' kvs = Option.none →
      walkKeys (PyV.dict kvs) [k'] = Except.ok PyV.none ∧ pyStr PyV.none = ("None")) := by
  refine ⟨?_, ?_, ?_⟩
  · obtain ⟨r, hr⟩ := foldlM_body_ok (queryStringBody string [])
      (fun f => ∃ kvs, f = PyV.dict kvs)
      (fun _ _ _ => ⟨_, rfl⟩) s.features
      (if append then s.found_queries else []) hd
    refine ⟨{ s with found_queries := r }, ?_⟩
    unfold query_map_sheets_by_string
    simp only [Except.bind, bind, pure, Except.pure]
    rw [hr]
  · obtain ⟨r, hr⟩ := foldlM_body_ok (queryStringBody string [k])
      (fun f => ∃ kvs, f = PyV.dict kvs)
      (by rintro acc f ⟨kvs, rfl⟩; exact ⟨_, rfl⟩) s.features
      (if append then s.found_queries else []) hd
    refine ⟨{ s with found_queries := r }, ?_⟩
    unfold query_map_sheets_by_string
    simp only [Except.bind, bind, pure, Except.pure]
    rw [hr]
  · intro kvs k' hk
    constructor
    · simp [walkKeys, pyDictGet, List.foldlM, hk, Except.bind, bind, pure, Except.pure]
    · rfl

/-- C7 witness: completion of a single-key query over a one-feature
catalog whose feature lacks the key. -/
theorem C7_witness :
    (∀ f ∈ ([PyV.dict []] : List PyV), ∃ kvs, f = PyV.dict kvs) ∧
    (∃ s', query_map_sheets_by_string
      { features := [PyV.dict []], polygons := false, grid_bbs := false,
        wfs_id_nos := false, published_dates := false, found_queries := [],
        merged_polygon := Option.none } ("x") [("a")] false = Except.ok s') := by
  have hd : ∀ f ∈ ([PyV.dict []] : List PyV), ∃ kvs, f = PyV.dict kvs := by
    intro f hf
    rw [List.mem_singleton] at hf
    exact ⟨[], hf⟩
  exact ⟨hd, (C7_short_key_walk_safe
    { features := [PyV.dict []], polygons := false, grid_bbs := false,
      wfs_id_nos := false, published_dates := false, found_queries := [],
      merged_polygon := Option.none } ("x") ("a") false hd).2.1⟩

/-- C10: download_map_sheets_by_queries invoked while found_queries is empty
always fails with an error (the grid precondition error or the "No query
results found/saved" error), fetches and merges no tile, and writes no
metadata row. -/
theorem C10_empty_queries (env : Env) (s : SheetState) (path : String)
    (ow : Bool) (h : s.found_queries = []) :
    (download_map_sheets_by_queries env s path ow).err.isSome = true ∧
    (download_map_sheets_by_queries env s path ow).effects = [] ∧
    (download_map_sheets_by_queries env s path ow).rowsWritten = [] := by
  cases hgb : s.grid_bbs <;>
    simp [download_map_sheets_by_queries, hgb, h]

/-- C6: every download operation invoked on otherwise valid arguments while
the grid-bounding-box flag is false fails with the PreconditionError
ValueError, leaves the state untouched (in particular it does not trigger
the grid-bounding-box derivation: the flag is still false), and performs no
tile fetch, no merge and no metadata write (empty effect trace, no rows).
For download_map_sheets_by_wfs_ids the WFS-id extraction is assumed already
done, since the source runs that (unrelated) derivation before the
precondition check. -/
theorem C6_precondition (env : Env) (s : SheetState) (wfs_ids : List ℤ)
    (polygon : Rect ℚ) (mode : String) (coords : ℚ × ℚ) (line : Seg)
    (string : String) (keys : List String) (path : String) (ow : Bool)
    (hg : s.grid_bbs = false) (hw : s.wfs_id_nos = true)
    (hm : mode = ("within") ∨ mode = ("intersects")) :
    download_all_map_sheets env s path ow
      = ⟨s, [], [], some preconditionErr⟩ ∧
    download_map_sheets_by_wfs_ids env s wfs_ids path ow
      = ⟨s, [], [], some preconditionErr⟩ ∧
    download_map_sheets_by_polygon env s polygon mode path ow
      = ⟨s, [], [], some preconditionErr⟩ ∧
    download_map_sheets_by_coordinates env s coords path ow
      = ⟨s, [], [], some preconditionErr⟩ ∧
    download_map_sheets_by_line env s line path ow
      = ⟨s, [], [], some preconditionErr⟩ ∧
    download_map_sheets_by_string env s string keys path ow
      = ⟨s, [], [], some preconditionErr⟩ ∧
    download_map_sheets_by_queries env s path ow
      = ⟨s, [], [], some preconditionErr⟩ := by
  refine ⟨?_, ?_, ?_, ?_, ?_, ?_, ?_⟩
  · simp [download_all_map_sheets, hg]
  · simp [download_map_sheets_by_wfs_ids, hw, hg]
  · rcases hm with hm | hm <;> simp [download_map_sheets_by_polygon, hm, hg]
  · simp [download_map_sheets_by_coordinates, hg]
  · simp [download_map_sheets_by_line, hg]
  · simp [download_map_sheets_by_string, hg]
  · simp [download_map_sheets_by_queries, hg]

/-- C6 witness: the precondition failure of download_all_map_sheets on a
concrete underived state. -/
theorem C6_witness :
    (({ features := [], polygons := false, grid_bbs := false, wfs_id_nos := true,
        published_dates := false, found_queries := [],
        merged_polygon := Option.none } : SheetState).grid_bbs = false ∧
     ({ features := [], polygons := false, grid_bbs := false, wfs_id_nos := true,
        published_dates := false, found_queries := [],
        merged_polygon := Option.none } : SheetState).wfs_id_nos = true ∧
     (("within" : String) = ("within") ∨ ("within" : String) = ("intersects"))) ∧
    download_all_map_sheets ⟨fun _ => false, fun _ => true⟩
      { features := [], polygons := false, grid_bbs := false, wfs_id_nos := true,
        published_dates := false, found_queries := [],
        merged_polygon := Option.none } ("maps") false
      = ⟨{ features := [], polygons := false, grid_bbs := false, wfs_id_nos := true,
           published_dates := false, found_queries := [],
           merged_polygon := Option.none }, [], [], some preconditionErr⟩ :=
  ⟨⟨rfl, rfl, Or.inl rfl⟩,
   (C6_precondition ⟨fun _ => false, fun _ => true⟩
      { features := [], polygons := false, grid_bbs := false, wfs_id_nos := true,
        published_dates := false, found_queries := [],
        merged_polygon := Option.none }
      [] ⟨0, 0, 1, 1⟩ ("within") (0, 0) ⟨0, 0, 1, 1⟩ ("") [] ("maps") false
      rfl rfl (Or.inl rfl)).1⟩

/-- Any successful _save_metadata call returns a row named
map_<IMAGE>.png for its feature. -/
theorem save_metadata_name (s : SheetState) (feature : PyV)
    (s' : SheetState) (f' : PyV) (row : MetaRow)
    (h : _save_metadata s feature = Except.ok (s', f', row)) :
    row.name = featureMapName feature ++ (".png") := by
  unfold _save_metadata at h
  simp only [Except.bind, bind, pure, Except.pure] at h
  iterate 10 (all_goals (try split at h))
  all_goals simp_all
  all_goals (obtain ⟨h1, h2, h3⟩ := h; rw [← h3]; try (first | rfl | (subst h2; rfl)))

/-- Appending a fixed suffix to strings is injective. -/
theorem str_append_cancel (a b c : String) (h : a ++ c = b ++ c) : a = b := by
  have hd : a.data ++ c.data = b.data ++ c.data := by
    rw [← String.data_append, ← String.data_append, h]
  have h2 := List.append_cancel_right hd
  cases a
  cases b
  simp only at h2
  rw [h2]

/-- The download loop with overwrite=False never fetches, merges or builds a
metadata row for any map name whose output file exists. -/
theorem downloadLoop_skips (env : Env) (path_save : String) (name : String)
    (hex : env.fileExists (path_save ++ ("/") ++ name ++ (".png")) = true) :
    ∀ (features : List PyV) (s : SheetState),
      (∀ e ∈ (downloadLoop env path_save false s features).2.1,
        (∀ bb, e ≠ Effect.fetchTiles name bb) ∧
        (∀ b, e ≠ Effect.mergeTiles name b)) ∧
      (∀ row ∈ (downloadLoop env path_save false s features).2.2.1,
        row.name ≠ name ++ (".png")) := by
  intro features
  induction features with
  | nil =>
      intro s
      simp [downloadLoop]
  | cons g rest ih =>
      intro s
      by_cases hc : _check_map_sheet_exists env path_save g
      · have : downloadLoop env path_save false s (g :: rest)
            = downloadLoop env path_save false s rest := by
          simp [downloadLoop, hc]
        rw [this]
        exact ih s
      · have hne : featureMapName g ≠ name := by
          intro he
          rw [_check_map_sheet_exists, he, hex] at hc
          exact hc rfl
        have hrowne : ∀ row' : MetaRow,
            row'.name = featureMapName g ++ (".png") → row'.name ≠ name ++ (".png") := by
          intro row' hr hcontra
          exact hne (str_append_cancel _ _ _ (hr ▸ hcontra))
        by_cases hs : env.mergeSuccess (featureMapName g)
        · cases hsm : _save_metadata s g with
          | error e =>
              have hred : downloadLoop env path_save false s (g :: rest)
                  = (s, (_download_map env g).2, [], some e) := by
                simp [downloadLoop, hc, _download_map, hs, hsm]
              rw [hred]
              refine ⟨?_, by simp⟩
              intro e' he'
              simp only [_download_map, List.mem_cons, List.mem_singleton] at he'
              rcases he' with rfl | rfl | rfl | h'
              · exact ⟨fun bb hbb => hne (by injection hbb), fun b hb => by injection hb⟩
              · exact ⟨fun bb hbb => by injection hbb, fun b hb => hne (by injection hb)⟩
              · exact ⟨fun bb hbb => by injection hbb, fun b hb => by injection hb⟩
              · exact absurd h' (List.not_mem_nil e')
          | ok res =>
              obtain ⟨s', f', row⟩ := res
              have hname := save_metadata_name s g s' f' row hsm
              rcases hloop : downloadLoop env path_save false s' rest with ⟨s'', effs', rows, err⟩
              have hred : downloadLoop env path_save false s (g :: rest)
                  = (s'', (_download_map env g).2 ++ effs', row :: rows, err) := by
                simp [downloadLoop, hc, _download_map, hs, hsm, hloop]
              rw [hred]
              have hih := ih s'
              rw [hloop] at hih
              constructor
              · intro e' he'
                simp only [List.mem_append] at he'
                rcases he' with he' | he'
                · simp only [_download_map, List.mem_cons, List.mem_singleton] at he'
                  rcases he' with rfl | rfl | rfl | h'
                  · exact ⟨fun bb hbb => hne (by injection hbb), fun b hb => by injection hb⟩
                  · exact ⟨fun bb hbb => by injection hbb, fun b hb => hne (by injection hb)⟩
                  · exact ⟨fun bb hbb => by injection hbb, fun b hb => by injection hb⟩
                  · exact absurd h' (List.not_mem_nil e')
                · exact hih.1 e' he'
              · intro row' hrow'
                rcases List.mem_cons.mp hrow' with rfl | hrow'
                · exact hrowne row' hname
                · exact hih.2 row' hrow'
        · rcases hloop : downloadLoop env path_save false s rest with ⟨s'', effs', rows, err⟩
          have hred : downloadLoop env path_save false s (g :: rest)
              = (s'', (_download_map env g).2 ++ effs', rows, err) := by
            simp [downloadLoop, hc, _download_map, hs, hloop]
          rw [hred]
          have hih := ih s
          rw [hloop] at hih
          constructor
          · intro e' he'
            simp only [List.mem_append] at he'
            rcases he' with he' | he'
            · simp only [_download_map, List.mem_cons, List.mem_singleton] at he'
              rcases he' with rfl | rfl | rfl | h'
              · exact ⟨fun bb hbb => hne (by injection hbb), fun b hb => by injection hb⟩
              · exact ⟨fun bb hbb => by injection hbb, fun b hb => hne (by injection hb)⟩
              · exact ⟨fun bb hbb => by injection hbb, fun b hb => by injection hb⟩
              · exact absurd h' (List.not_mem_nil e')
            · exact hih.1 e' he'
          · exact hih.2

/-- C9: when a feature's target file map_<name>.png already exists and
overwrite=False, _download_map_sheets performs no tile fetch and no merge
for that feature, appends no metadata row for it, and the metadata flush
appends the new rows after the prior file contents, never truncating or
overwriting them. -/
theorem C9_skip_existing (env : Env) (s : SheetState) (features : List PyV)
    (path_save : String) (f : PyV) (existing : Option (List MetaRow))
    (_hf : f ∈ features)
    (hex : env.fileExists (path_save ++ ("/") ++ featureMapName f ++ (".png")) = true) :
    (∀ e ∈ (_download_map_sheets env s features path_save false).effects,
      (∀ bb, e ≠ Effect.fetchTiles (featureMapName f) bb) ∧
      (∀ b, e ≠ Effect.mergeTiles (featureMapName f) b)) ∧
    (∀ row ∈ (_download_map_sheets env s features path_save false).rowsWritten,
      row.name ≠ featureMapName f ++ (".png")) ∧
    _create_metadata_df
        (_download_map_sheets env s features path_save false).rowsWritten existing
      = existing.getD [] ++
        (_download_map_sheets env s features path_save false).rowsWritten := by
  have h := downloadLoop_skips env path_save (featureMapName f) hex features s
  rcases hloop : downloadLoop env path_save false s features with ⟨s', effs, rows, err⟩
  rw [hloop] at h
  unfold _download_map_sheets
  rw [hloop]
  cases err with
  | none =>
      refine ⟨?_, ?_, rfl⟩
      · intro e he
        simp only [List.mem_append, List.mem_singleton] at he
        rcases he with he | rfl
        · exact h.1 e he
        · exact ⟨fun bb hbb => (by cases hbb), fun b hb => (by cases hb)⟩
      · exact h.2
  | some e => exact ⟨h.1, (by simp), rfl⟩

/-- C9 witness: a one-feature batch whose output file exists writes no row
for that feature. -/
theorem C9_witness :
    (PyV.dict [(("properties" : String), PyV.dict [(("IMAGE" : String), PyV.str ("a"))])]
        ∈ [PyV.dict [(("properties" : String), PyV.dict [(("IMAGE" : String), PyV.str ("a"))])]] ∧
     (fun _ => true : String → Bool)
        (("maps" : String) ++ ("/") ++
          featureMapName (PyV.dict [(("properties" : String),
            PyV.dict [(("IMAGE" : String), PyV.str ("a"))])]) ++ (".png")) = true) ∧
    (∀ row ∈ (_download_map_sheets ⟨fun _ => true, fun _ => true⟩
        { features := [], polygons := false, grid_bbs := true, wfs_id_nos := false,
          published_dates := true, found_queries := [], merged_polygon := Option.none }
        [PyV.dict [(("properties" : String), PyV.dict [(("IMAGE" : String), PyV.str ("a"))])]]
        ("maps") false).rowsWritten,
      row.name ≠ featureMapName (PyV.dict [(("properties" : String),
        PyV.dict [(("IMAGE" : String), PyV.str ("a"))])]) ++ (".png")) :=
  ⟨⟨List.mem_singleton.mpr rfl, rfl⟩,
   (C9_skip_existing ⟨fun _ => true, fun _ => true⟩
      { features := [], polygons := false, grid_bbs := true, wfs_id_nos := false,
        published_dates := true, found_queries := [], merged_polygon := Option.none }
      [PyV.dict [(("properties" : String), PyV.dict [(("IMAGE" : String), PyV.str ("a"))])]]
      ("maps")
      (PyV.dict [(("properties" : String), PyV.dict [(("IMAGE" : String), PyV.str ("a"))])])
      Option.none (List.mem_singleton.mpr rfl) rfl).2.1⟩

/-- Updating a key in a dict makes that key look up the new value. -/
theorem lookup_pySetKV_self (kvs : List (String × PyV)) (k : String) (v : PyV) :
    List.lookup k (pySetKV kvs k v) = some v := by
  induction kvs with
  | nil => simp [pySetKV, List.lookup]
  | cons p rest ih =>
      obtain ⟨k1, v1⟩ := p
      by_cases hk : k1 = k
      · simp [pySetKV, hk, List.lookup]
      · simp only [pySetKV, if_neg hk, List.lookup]
        have : (k == k1) = false := by
          simp [Ne.symm hk]
        simp [this, ih]

/-- A successful pyEvalDigits returns the decimal value of the digits. -/
theorem pyEvalDigits_ok_val (s : String) (m : ℤ)
    (h : pyEvalDigits s = Except.ok m) : m = digitsToInt s.toList := by
  unfold pyEvalDigits at h
  split at h
  · split at h
    · cases h
    · injection h with h'
      exact h'.symm
  · cases h

/-- The per-feature published-date extraction on a well-formed feature:
no match stores an empty list with a warning, a first match stores its
captured digits, and the warning list is empty exactly when findall produced
one match. -/
theorem extractDateFeature_eval (fkvs pkvs : List (String × PyV)) (t : String)
    (hp : List.lookup ("properties") fkvs = some (PyV.dict pkvs))
    (ht : List.lookup ("WFS_TITLE") pkvs = some (PyV.str t))
    (hok : ∀ d ds, findallPub t.toList = d :: ds →
      ∃ m : ℤ, pyEvalDigits (String.mk d) = Except.ok m) :
    ∃ (f' : PyV) (w : List String),
      extractDateFeature (PyV.dict fkvs) = Except.ok (f', w) ∧
      pySubscript (pySubscript f' ("properties")) ("published_date") =
        (match findallPub t.toList with
         | [] => PyV.list []
         | d :: _ => PyV.int (digitsToInt d)) ∧
      (w = [] ↔ (findallPub t.toList).length = 1) ∧
      pySubscript (pySubscript (PyV.dict fkvs) ("properties")) ("WFS_TITLE")
        = PyV.str t := by
  have hprops : pySubscript (PyV.dict fkvs) ("properties") = PyV.dict pkvs := by
    simp [pySubscript, hp]
  have htitle : pySubscript (PyV.dict pkvs) ("WFS_TITLE") = PyV.str t := by
    simp [pySubscript, ht]
  have hread : ∀ v : PyV,
      pySubscript (pySubscript (pySet (PyV.dict fkvs) ("properties")
        (pySet (PyV.dict pkvs) ("published_date") v)) ("properties"))
        ("published_date") = v := by
    intro v
    simp [pySet, pySubscript, lookup_pySetKV_self]
  cases hfd : findallPub t.toList with
  | nil =>
      refine ⟨pySet (PyV.dict fkvs) ("properties")
          (pySet (PyV.dict pkvs) ("published_date") (PyV.list [])),
        [("[WARNING] No published date detected in ")
          ++ pyStr (pySubscript (PyV.dict pkvs) ("IMAGE")) ++ (".")],
        ?_, ?_, ?_, (by rw [hprops, htitle])⟩
      · unfold extractDateFeature
        rw [hprops, htitle]
        simp only [Except.bind, bind, pure, Except.pure, hfd]
      · rw [hread]
      · simp [hfd]
  | cons d ds =>
      obtain ⟨m, hm⟩ := hok d ds hfd
      have hmv : m = digitsToInt d := by
        have := pyEvalDigits_ok_val _ _ hm
        simpa [String.toList] using this
      refine ⟨pySet (PyV.dict fkvs) ("properties")
          (pySet (PyV.dict pkvs) ("published_date") (PyV.int m)),
        (if ds.isEmpty then [] else
          [("[WARNING] Multiple published dates detected in ")
            ++ pyStr (pySubscript (PyV.dict pkvs) ("IMAGE")) ++ (". Using first date.")]),
        ?_, ?_, ?_, (by rw [hprops, htitle])⟩
      · unfold extractDateFeature
        rw [hprops, htitle]
        simp only [Except.bind, bind, pure, Except.pure, hfd, hm]
      · rw [hread, hmv]
      · cases ds with
        | nil => simp [hfd]
        | cons e es => simp [hfd]

/-- A feature determines its title. -/
theorem title_unique (f : PyV) (t t' : String)
    (h : pySubscript (pySubscript f ("properties")) ("WFS_TITLE") = PyV.str t)
    (h' : pySubscript (pySubscript f ("properties")) ("WFS_TITLE") = PyV.str t') :
    t = t' := by
  rw [h] at h'
  injection h'

/-- The extraction loop over a well-formed catalog succeeds, relates every
feature to its updated copy, and warns exactly on the features whose findall
did not produce a single match. -/
theorem mapM_extractDate (features : List PyV)
    (hwf : ∀ f ∈ features, ∃ fkvs pkvs t, f = PyV.dict fkvs ∧
      List.lookup ("properties") fkvs = some (PyV.dict pkvs) ∧
      List.lookup ("WFS_TITLE") pkvs = some (PyV.str t) ∧
      (∀ d ds, findallPub t.toList = d :: ds →
        ∃ m : ℤ, pyEvalDigits (String.mk d) = Except.ok m)) :
    ∃ fw : List (PyV × List String),
      features.mapM extractDateFeature = Except.ok fw ∧
      List.Forall₂ (fun f pr =>
        ∀ t : String,
          pySubscript (pySubscript f ("properties")) ("WFS_TITLE") = PyV.str t →
          pySubscript (pySubscript pr.1 ("properties")) ("published_date") =
            (match findallPub t.toList with
             | [] => PyV.list []
             | d :: _ => PyV.int (digitsToInt d)) ∧
          (pr.2 = [] ↔ (findallPub t.toList).length = 1)) features fw ∧
      ((fw.map Prod.snd).flatten = [] ↔
        ∀ f ∈ features, ∀ t : String,
          pySubscript (pySubscript f ("properties")) ("WFS_TITLE") = PyV.str t →
          (findallPub t.toList).length = 1) := by
  induction features with
  | nil => exact ⟨[], rfl, List.Forall₂.nil, by simp⟩
  | cons g rest ih =>
      obtain ⟨fkvs, pkvs, t, rfl, hp, ht, hok⟩ := hwf g (List.mem_cons_self g rest)
      obtain ⟨f', w, heval, hpub, hwiff, htitle⟩ :=
        extractDateFeature_eval fkvs pkvs t hp ht hok
      obtain ⟨fw, hmap, hrel, hflat⟩ :=
        ih (fun f hf => hwf f (List.mem_cons_of_mem _ hf))
      refine ⟨(f', w) :: fw, ?_, ?_, ?_⟩
      · rw [List.mapM_cons, heval, hmap]
        rfl
      · refine List.Forall₂.cons ?_ hrel
        intro t' ht'
        have := title_unique _ _ _ htitle ht'
        subst this
        exact ⟨hpub, hwiff⟩
      · constructor
        · intro hemp f hf t' ht'
          simp only [List.map_cons, List.flatten_cons, List.append_eq_nil] at hemp
          rcases List.mem_cons.mp hf with rfl | hf
          · have := title_unique _ _ _ htitle ht'
            subst this
            exact hwiff.mp hemp.1
          · exact hflat.mp hemp.2 f hf t' ht'
        · intro hall
          simp only [List.map_cons, List.flatten_cons, List.append_eq_nil]
          constructor
          · exact hwiff.mpr (hall _ (List.mem_cons_self _ _) t htitle)
          · exact hflat.mpr (fun f hf t' ht' => hall f (List.mem_cons_of_mem _ hf) t' ht')

/-- C8 (amended): on a catalog whose features carry string titles and whose
first regex captures have no leading zeros, extract_published_dates
completes without failure and sets each feature's published_date to the
captured group of the FIRST findall match of the published-date regex
(IGNORECASE) — which, by greedy matching, is the LAST digit run following
"Published" on that line, not the first — storing an empty list when there
is no match; the operation emits no warning exactly when every title yields
exactly one findall match (several digit runs on one line form a single
match and warn nothing). -/
theorem C8_published_dates (s : SheetState)
    (hwf : ∀ f ∈ s.features, ∃ fkvs pkvs t, f = PyV.dict fkvs ∧
      List.lookup ("properties") fkvs = some (PyV.dict pkvs) ∧
      List.lookup ("WFS_TITLE") pkvs = some (PyV.str t) ∧
      (∀ d ds, findallPub t.toList = d :: ds →
        ∃ m : ℤ, pyEvalDigits (String.mk d) = Except.ok m)) :
    ∃ (s' : SheetState) (warns : List String),
      extract_published_dates s = Except.ok (s', warns) ∧
      s'.published_dates = true ∧
      List.Forall₂ (fun f f' =>
        ∀ t : String,
          pySubscript (pySubscript f ("properties")) ("WFS_TITLE") = PyV.str t →
          pySubscript (pySubscript f' ("properties")) ("published_date") =
            (match findallPub t.toList with
             | [] => PyV.list []
             | d :: _ => PyV.int (digitsToInt d))) s.features s'.features ∧
      (warns = [] ↔ ∀ f ∈ s.features, ∀ t : String,
        pySubscript (pySubscript f ("properties")) ("WFS_TITLE") = PyV.str t →
        (findallPub t.toList).length = 1) := by
  obtain ⟨fw, hmap, hrel, hflat⟩ := mapM_extractDate s.features hwf
  refine ⟨{ s with features := fw.map Prod.fst, published_dates := true },
    (fw.map Prod.snd).flatten, ?_, rfl, ?_, hflat⟩
  · unfold extract_published_dates
    rw [hmap]
    rfl
  · show List.Forall₂ _ s.features (fw.map Prod.fst)
    rw [List.forall₂_map_right_iff]
    exact List.Forall₂.imp (fun _ _ h t ht => (h t ht).1) hrel

/-- C8 counterexample: for the title "Published 1899 to 1900" the code
stores 1900 — the last digit run, not the first (1899) — and prints no
multiple-match warning, because the greedy dot-star folds both runs into one
match. -/
theorem C8_counterexample :
    (extract_published_dates
      { features := [PyV.dict [(("properties" : String), PyV.dict
          [(("WFS_TITLE" : String), PyV.str ("Published 1899 to 1900")),
           (("IMAGE" : String), PyV.str ("m"))])]],
        polygons := false, grid_bbs := false, wfs_id_nos := false,
        published_dates := false, found_queries := [],
        merged_polygon := Option.none }).map
      (fun p => (p.1.features.map (fun f =>
         pySubscript (pySubscript f ("properties")) ("published_date")), p.2))
      = Except.ok ([PyV.int 1900], []) ∧
    (1900 : ℤ) ≠ 1899 := by
  constructor
  · rfl
  · decide

/-- C8 witness: the amended extraction behaviour on a one-feature catalog
titled "Published: 1896". -/
theorem C8_witness :
    (∀ f ∈ ([PyV.dict [(("properties" : String), PyV.dict
        [(("WFS_TITLE" : String), PyV.str ("Published: 1896")),
         (("IMAGE" : String), PyV.str ("m"))])]] : List PyV),
      ∃ fkvs pkvs t, f = PyV.dict fkvs ∧
        List.lookup ("properties") fkvs = some (PyV.dict pkvs) ∧
        List.lookup ("WFS_TITLE") pkvs = some (PyV.str t) ∧
        (∀ d ds, findallPub t.toList = d :: ds →
          ∃ m : ℤ, pyEvalDigits (String.mk d) = Except.ok m)) ∧
    (∃ (s' : SheetState) (warns : List String),
      extract_published_dates
        { features := [PyV.dict [(("properties" : String), PyV.dict
            [(("WFS_TITLE" : String), PyV.str ("Published: 1896")),
             (("IMAGE" : String), PyV.str ("m"))])]],
          polygons := false, grid_bbs := false, wfs_id_nos := false,
          published_dates := false, found_queries := [],
          merged_polygon := Option.none } = Except.ok (s', warns) ∧
      s'.published_dates = true ∧
      List.Forall₂ (fun f f' =>
        ∀ t : String,
          pySubscript (pySubscript f ("properties")) ("WFS_TITLE") = PyV.str t →
          pySubscript (pySubscript f' ("properties")) ("published_date") =
            (match findallPub t.toList with
             | [] => PyV.list []
             | d :: _ => PyV.int (digitsToInt d)))
        ({ features := [PyV.dict [(("properties" : String), PyV.dict
            [(("WFS_TITLE" : String), PyV.str ("Published: 1896")),
             (("IMAGE" : String), PyV.str ("m"))])]],
           polygons := false, grid_bbs := false, wfs_id_nos := false,
           published_dates := false, found_queries := [],
           merged_polygon := Option.none } : SheetState).features s'.features ∧
      (warns = [] ↔ ∀ f ∈ ([PyV.dict [(("properties" : String), PyV.dict
            [(("WFS_TITLE" : String), PyV.str ("Published: 1896")),
             (("IMAGE" : String), PyV.str ("m"))])]] : List PyV), ∀ t : String,
        pySubscript (pySubscript f ("properties")) ("WFS_TITLE") = PyV.str t →
        (findallPub t.toList).length = 1)) := by
  have hwf : ∀ f ∈ ([PyV.dict [(("properties" : String), PyV.dict
      [(("WFS_TITLE" : String), PyV.str ("Published: 1896")),
       (("IMAGE" : String), PyV.str ("m"))])]] : List PyV),
      ∃ fkvs pkvs t, f = PyV.dict fkvs ∧
        List.lookup ("properties") fkvs = some (PyV.dict pkvs) ∧
        List.lookup ("WFS_TITLE") pkvs = some (PyV.str t) ∧
        (∀ d ds, findallPub t.toList = d :: ds →
          ∃ m : ℤ, pyEvalDigits (String.mk d) = Except.ok m) := by
    intro f hf
    rw [List.mem_singleton] at hf
    subst hf
    refine ⟨_, _, ("Published: 1896"), rfl, rfl, rfl, ?_⟩
    intro d ds h
    rw [show findallPub (String.toList ("Published: 1896"))
        = [String.toList ("1896")] from rfl] at h
    injection h with h1 h2
    subst h1
    exact ⟨1896, rfl⟩
  exact ⟨hwf, C8_published_dates _ hwf⟩

/-- C10 witness: the empty-query failure on a concrete state with grid
bounding boxes derived. -/
theorem C10_witness :
    ({ features := [], polygons := false, grid_bbs := true, wfs_id_nos := false,
       published_dates := false, found_queries := [],
       merged_polygon := Option.none } : SheetState).found_queries = [] ∧
    ((download_map_sheets_by_queries ⟨fun _ => false, fun _ => true⟩
        { features := [], polygons := false, grid_bbs := true, wfs_id_nos := false,
          published_dates := false, found_queries := [],
          merged_polygon := Option.none } ("maps") false).err.isSome = true ∧
     (download_map_sheets_by_queries ⟨fun _ => false, fun _ => true⟩
        { features := [], polygons := false, grid_bbs := true, wfs_id_nos := false,
          published_dates := false, found_queries := [],
          merged_polygon := Option.none } ("maps") false).effects = [] ∧
     (download_map_sheets_by_queries ⟨fun _ => false, fun _ => true⟩
        { features := [], polygons := false, grid_bbs := true, wfs_id_nos := false,
          published_dates := false, found_queries := [],
          merged_polygon := Option.none } ("maps") false).rowsWritten = []) :=
  ⟨rfl, C10_empty_queries _ _ _ _ rfl⟩
